import Mathlib

/-!
Verification of the BLAS validation-and-dispatch layer of libgpuarray
(`src/gpuarray_array_blas.c`).

The five entry points (`GpuArray_rdot`, `GpuArray_rgemv`, `GpuArray_rgemm`,
`GpuArray_rger`, `GpuArray_rgemmBatch_3d`) are embedded as pure Lean
functions over a `GpuArray` record.  External collaborators (the backend
kernels, `GpuArray_copy`, `gpublas_setup`, `malloc`) are modelled by an
oracle `Backend`; every backend kernel invocation, temporary copy made and
temporary copy released is recorded in the returned `CallResult`, together
with every `error_set` event and the final status code.
-/

namespace GpuBlasLayer

/-- Element-type tags.  The three supported precisions plus one
unsupported code (`GA_INT`) standing in for all the others. -/
inductive Typecode
  | GA_HALF
  | GA_FLOAT
  | GA_DOUBLE
  | GA_INT
deriving DecidableEq, Repr

/-- `gpuarray_get_elsize`: element size in bytes for a type code. -/
def gpuarray_get_elsize : Typecode → Nat
  | .GA_HALF => 2
  | .GA_FLOAT => 4
  | .GA_DOUBLE => 8
  | .GA_INT => 4

/-- Backend calling order (`cb_order` in gpuarray/buffer_blas.h). -/
inductive cb_order
  | cb_fortran
  | cb_c
deriving DecidableEq, Repr

/-- Backend transpose flag (`cb_transpose` in gpuarray/buffer_blas.h). -/
inductive cb_transpose
  | cb_no_trans
  | cb_trans
  | cb_conj_trans
deriving DecidableEq, Repr

/-- Status codes used by this translation unit. -/
inductive Status
  | GA_NO_ERROR
  | GA_VALUE_ERROR
  | GA_INVALID_ERROR
  | GA_UNALIGNED_ERROR
  | GA_COPY_ERROR
  | GA_MISC_ERROR
  | GA_DEVSUP_ERROR
  | GA_SYS_ERROR
  | GA_MEMORY_ERROR
deriving DecidableEq, Repr

/-- The strided device array view.  `data` is the opaque buffer handle,
`strides` are signed byte strides, `offset` an unsigned byte offset and
`aligned` the `GA_ALIGNED` flag (alignment depends on raw pointer values,
which are outside the model, so it is carried as a field). -/
structure GpuArray where
  typecode : Typecode
  dimensions : List Nat
  strides : List Int
  offset : Nat
  aligned : Bool
  data : Nat
deriving DecidableEq, Repr

/-- `a->nd`. -/
def GpuArray.nd (a : GpuArray) : Nat := a.dimensions.length

/-- `a->dimensions[i]`. -/
def GpuArray.dim (a : GpuArray) (i : Nat) : Nat := a.dimensions.getD i 0

/-- `a->strides[i]`. -/
def GpuArray.str (a : GpuArray) (i : Nat) : Int := a.strides.getD i 0

/-- `GpuArray_ITEMSIZE` as an integer. -/
def GpuArray.itemsize (a : GpuArray) : Int := gpuarray_get_elsize a.typecode

/-- One pass of the contiguity scan: each dimension's stride must equal
the running block size, except that a dimension of extent 1 has an
unconstrained stride; the block size is multiplied by the extent as the
scan advances. -/
def contigScan : Int → List (Nat × Int) → Bool
  | _, [] => true
  | size, (d, s) :: rest => (s == size || d == 1) && contigScan (size * (d : Int)) rest

/-- Modelled from the spec: the precomputed `GA_F_CONTIGUOUS` flag.  The
flag computation lives in the array container (outside this translation
unit); per the spec a view is column-major-contiguous when the first
stride equals the element size and each later stride equals the product
of the preceding extents and the element size, dimensions of extent 1
having unconstrained strides (degenerate rule). -/
def GpuArray.f_contig (a : GpuArray) : Bool :=
  contigScan a.itemsize (a.dimensions.zip a.strides)

/-- Modelled from the spec: the precomputed `GA_C_CONTIGUOUS` flag
(row-major-contiguity, the transposed condition of `f_contig`). -/
def GpuArray.c_contig (a : GpuArray) : Bool :=
  contigScan a.itemsize ((a.dimensions.zip a.strides).reverse)

/-- Modelled from the spec: `GpuArray_ISONESEGMENT(a)`, i.e.
`a->flags & (GA_C_CONTIGUOUS | GA_F_CONTIGUOUS)`. -/
def GpuArray_ISONESEGMENT (a : GpuArray) : Bool := a.c_contig || a.f_contig

/-- Modelled from the spec: `GpuArray_IS_C_CONTIGUOUS(a)`, i.e.
`a->flags & GA_C_CONTIGUOUS`. -/
def GpuArray_IS_C_CONTIGUOUS (a : GpuArray) : Bool := a.c_contig

/-- Copy order argument of `GpuArray_copy`. -/
inductive CopyOrder
  | GA_ANY_ORDER
  | GA_C_ORDER
  | GA_F_ORDER
deriving DecidableEq, Repr

/-- Column-major packed strides for a dimension list. -/
def fStridesFrom (es : Int) : List Nat → List Int
  | [] => []
  | d :: rest => es :: fStridesFrom (es * d) rest

/-- Modelled from the spec: the view produced by a successful
`GpuArray_copy(dst, src, order)` — same logical shape and type, packed
strides in the requested canonical order (`GA_ANY_ORDER` behaves like
C order here; for the 1-D vectors it is applied to, the two coincide),
offset 0, aligned. -/
def mkCopy (src : GpuArray) (ord : CopyOrder) : GpuArray :=
  let es : Int := gpuarray_get_elsize src.typecode
  { src with
    strides :=
      match ord with
      | .GA_F_ORDER => fStridesFrom es src.dimensions
      | _ => (fStridesFrom es src.dimensions.reverse).reverse
    offset := 0
    aligned := true }

/-- A backend kernel invocation, with all parameters this layer resolves
(scalars alpha/beta are forwarded unchanged and carry no layout
information, so they are not recorded).  Offsets are in element units,
exactly as handed to the backend. -/
inductive KernelCall
  | dot (prec : Typecode) (n : Nat) (xData xOff : Nat) (incx : Int)
        (yData yOff : Nat) (incy : Int) (zData zOff : Nat)
  | gemv (prec : Typecode) (o : cb_order) (tA : cb_transpose) (m n : Nat)
         (aData aOff lda : Nat) (xData xOff : Nat) (incx : Int)
         (yData yOff : Nat) (incy : Int)
  | ger (prec : Typecode) (o : cb_order) (m n : Nat)
        (xData xOff : Nat) (incx : Int) (yData yOff : Nat) (incy : Int)
        (aData aOff lda : Nat)
  | gemm (prec : Typecode) (o : cb_order) (tA tB : cb_transpose) (m n k : Nat)
         (aData aOff lda : Nat) (bData bOff ldb : Nat) (cData cOff ldc : Nat)
  | gemm3D (prec : Typecode) (o : cb_order) (tA tB : cb_transpose) (m n k : Nat)
           (aData aOff lda : Nat) (strideA : Int)
           (bData bOff ldb : Nat) (strideB : Int)
           (cData cOff ldc : Nat) (strideC : Int)
           (batchCount : Nat) (flags : Nat)
  | gemmBatch (prec : Typecode) (o : cb_order) (tA tB : cb_transpose) (m n k : Nat)
              (aOffs : List Int) (lda : Nat) (bOffs : List Int) (ldb : Nat)
              (cOffs : List Int) (ldc : Nat) (batchCount : Nat) (flags : Nat)
deriving DecidableEq, Repr

/-- The external collaborators, as an oracle: `setup` is the
`gpublas_setup` status, `copyRes i` the status of the i-th
`GpuArray_copy` attempt within one call, `mallocOk i` whether the i-th
host `malloc` of the batched fallback succeeds, and `run` the status a
backend kernel returns for a given invocation. -/
structure Backend where
  setup : Status
  copyRes : Nat → Status
  mallocOk : Nat → Bool
  run : KernelCall → Status

/-- Observable outcome of one entry-point call: returned status, the
sequence of `error_set`/`error_fmt` events (status and message), the
backend kernels invoked, the temporary device copies materialized
(by operand name, in order) and the temporary copies released. -/
structure CallResult where
  status : Status
  errs : List (Status × String)
  kernels : List KernelCall
  copies : List String
  clears : List String
deriving DecidableEq, Repr

/-- An early validation return: `error_set` plus immediate return,
before any temporary exists. -/
def errRet (pre : List (Status × String)) (s : Status) (m : String) : CallResult :=
  { status := s, errs := pre ++ [(s, m)], kernels := [], copies := [], clears := [] }

/-- Cleanup discipline of one call: the temporaries released are
exactly the temporaries materialized (same operands, same order), and
no temporary is recorded twice. -/
def balancedCleanup (r : CallResult) : Prop :=
  r.clears = r.copies ∧ r.copies.Nodup

/-- Kernel stage of `GpuArray_rdot` (src/gpuarray_array_blas.c lines
64-96): `gpublas_setup`, the precision switch dispatching the dot
kernel, and the cleanup releasing the listed temporaries.  The three
switch arms differ only in precision, so they are modelled as one call
carrying `Xp.typecode`. -/
def rdotKernel (Xp Yp Z : GpuArray) (n elsizeN : Nat)
    (pre : List (Status × String)) (copies : List String) (bk : Backend) : CallResult :=
  let elsize : Int := elsizeN
  if bk.setup ≠ .GA_NO_ERROR then
    { status := bk.setup, errs := pre, kernels := [], copies := copies, clears := copies }
  else
    let call := KernelCall.dot Xp.typecode n
      Xp.data (Xp.offset / elsizeN) (Xp.str 0 / elsize)
      Yp.data (Yp.offset / elsizeN) (Yp.str 0 / elsize)
      Z.data (Z.offset / elsizeN)
    { status := bk.run call, errs := pre, kernels := [call],
      copies := copies, clears := copies }

/-- `GpuArray_rdot` (src/gpuarray_array_blas.c lines 10-97).  Note the
source's dtype-consistency check on line 31-32 calls `error_set` without
`return`, so execution continues past it; the model records the event in
`errs` and carries on, exactly as the C does. -/
def GpuArray_rdot (X Y Z : GpuArray) (nocopy : Bool) (bk : Backend) : CallResult :=
  if X.typecode ≠ .GA_HALF ∧ X.typecode ≠ .GA_FLOAT ∧ X.typecode ≠ .GA_DOUBLE then
    errRet [] .GA_INVALID_ERROR "Data type not supported"
  else if X.nd ≠ 1 ∨ Y.nd ≠ 1 ∨ Z.nd ≠ 0 then
    errRet [] .GA_VALUE_ERROR "Wrong number of dimensions"
  else
    let pre : List (Status × String) :=
      if X.typecode ≠ Y.typecode ∨ X.typecode ≠ Z.typecode then
        [(.GA_VALUE_ERROR, "Inconsistent dtypes")]
      else []
    let n := X.dim 0
    if ¬ X.aligned ∨ ¬ Y.aligned ∨ ¬ Z.aligned then
      errRet pre .GA_UNALIGNED_ERROR "One of the inputs is unaligned"
    else if X.dim 0 ≠ Y.dim 0 then
      errRet pre .GA_VALUE_ERROR "Shape mismatch between X and Y"
    else
      let elsizeN := gpuarray_get_elsize X.typecode
      let elsize : Int := elsizeN
      if X.str 0 < 0 ∧ nocopy then
        errRet pre .GA_COPY_ERROR "Copy required for X"
      else if X.str 0 < 0 ∧ bk.copyRes 0 ≠ .GA_NO_ERROR then
        { status := bk.copyRes 0, errs := pre, kernels := [], copies := [], clears := [] }
      else
        let Xp := if X.str 0 < 0 then mkCopy X .GA_ANY_ORDER else X
        let xCopies : List String := if X.str 0 < 0 then ["X"] else []
        if Y.str 0 < 0 ∧ nocopy then
          -- direct return in the source, bypassing cleanup (no copy can be live here)
          { status := .GA_COPY_ERROR, errs := pre ++ [(.GA_COPY_ERROR, "Copy required for Y")],
            kernels := [], copies := xCopies, clears := [] }
        else if Y.str 0 < 0 ∧ bk.copyRes 1 ≠ .GA_NO_ERROR then
          { status := bk.copyRes 1, errs := pre, kernels := [],
            copies := xCopies, clears := xCopies }
        else
          let Yp := if Y.str 0 < 0 then mkCopy Y .GA_ANY_ORDER else Y
          let yCopies : List String := if Y.str 0 < 0 then ["Y"] else []
          rdotKernel Xp Yp Z n elsizeN pre (xCopies ++ yCopies) bk

/-- The in-place transpose-flag toggle the source applies when an
operand's storage order disagrees with the kernel calling order:
`if (t == cb_no_trans) t = cb_trans; else t = cb_no_trans;`. -/
def flipTrans : cb_transpose → cb_transpose
  | .cb_no_trans => .cb_trans
  | _ => .cb_no_trans

/-- Output check, order/leading-dimension resolution and dispatch of
`GpuArray_rgemv` (src/gpuarray_array_blas.c lines 164-201): the
negative-stride check on the output Y, the classification of the
(possibly copied) A, `gpublas_setup` and the precision switch, followed
by the cleanup releasing the listed temporaries. -/
def rgemvDispatch (transA : cb_transpose) (Ap Xp Y : GpuArray) (m n elsizeN : Nat)
    (copies : List String) (bk : Backend) : CallResult :=
  let elsize : Int := elsizeN
  if Y.str 0 < 0 then
    { status := .GA_VALUE_ERROR,
      errs := [(.GA_VALUE_ERROR, "Negative strides for Y")], kernels := [],
      copies := copies, clears := copies }
  else
    let ores : Option (cb_order × Nat) :=
      if Ap.f_contig then some (.cb_fortran, Ap.dim 0)
      else if Ap.c_contig then some (.cb_c, Ap.dim 1)
      else none
    match ores with
    | none =>
      { status := .GA_VALUE_ERROR,
        errs := [(.GA_VALUE_ERROR, "Noncontiguous A")], kernels := [],
        copies := copies, clears := copies }
    | some (o, lda) =>
      if bk.setup ≠ .GA_NO_ERROR then
        { status := bk.setup, errs := [], kernels := [],
          copies := copies, clears := copies }
      else
        let call := KernelCall.gemv Ap.typecode o transA m n
          Ap.data (Ap.offset / elsizeN) lda
          Xp.data (Xp.offset / elsizeN) (Xp.str 0 / elsize)
          Y.data (Y.offset / elsizeN) (Y.str 0 / elsize)
        { status := bk.run call, errs := [], kernels := [call],
          copies := copies, clears := copies }

/-- `GpuArray_rgemv` (src/gpuarray_array_blas.c lines 99-202). -/
def GpuArray_rgemv (transA : cb_transpose) (A X Y : GpuArray) (nocopy : Bool)
    (bk : Backend) : CallResult :=
  if A.typecode ≠ .GA_HALF ∧ A.typecode ≠ .GA_FLOAT ∧ A.typecode ≠ .GA_DOUBLE then
    errRet [] .GA_INVALID_ERROR "Unsupported dtype"
  else if A.nd ≠ 2 ∨ X.nd ≠ 1 ∨ Y.nd ≠ 1 then
    errRet [] .GA_VALUE_ERROR "Wrong number of dimensions"
  else if X.typecode ≠ A.typecode ∨ Y.typecode ≠ A.typecode then
    errRet [] .GA_VALUE_ERROR "Inconsistent dtypes"
  else if ¬ A.aligned ∨ ¬ X.aligned ∨ ¬ Y.aligned then
    errRet [] .GA_UNALIGNED_ERROR "Unaligned inputs"
  else
    if Y.dim 0 ≠ (if transA = .cb_no_trans then A.dim 0 else A.dim 1) ∨
       X.dim 0 ≠ (if transA = .cb_no_trans then A.dim 1 else A.dim 0) then
      errRet [] .GA_VALUE_ERROR "Inconsistent shapes"
    else
      let m := A.dim 0
      let n := A.dim 1
      let elsizeN := gpuarray_get_elsize A.typecode
      let elsize : Int := elsizeN
      if ¬ GpuArray_ISONESEGMENT A ∧ nocopy then
        errRet [] .GA_COPY_ERROR "Copy required for A"
      else if ¬ GpuArray_ISONESEGMENT A ∧ bk.copyRes 0 ≠ .GA_NO_ERROR then
        { status := bk.copyRes 0, errs := [], kernels := [], copies := [], clears := [] }
      else
        let Ap := if GpuArray_ISONESEGMENT A then A else mkCopy A .GA_F_ORDER
        let aCopies : List String := if GpuArray_ISONESEGMENT A then [] else ["A"]
        if X.str 0 < 0 ∧ nocopy then
          -- direct return in the source, bypassing cleanup (no copy can be live here)
          { status := .GA_COPY_ERROR, errs := [(.GA_COPY_ERROR, "Copy required for X")],
            kernels := [], copies := aCopies, clears := [] }
        else if X.str 0 < 0 ∧ bk.copyRes 1 ≠ .GA_NO_ERROR then
          { status := bk.copyRes 1, errs := [], kernels := [],
            copies := aCopies, clears := aCopies }
        else
          let Xp := if X.str 0 < 0 then mkCopy X .GA_ANY_ORDER else X
          let xCopies : List String := if X.str 0 < 0 then ["X"] else []
          rgemvDispatch transA Ap Xp Y m n elsizeN (aCopies ++ xCopies) bk

/-- Output check, order/transpose/leading-dimension resolution and
dispatch of `GpuArray_rgemm` (src/gpuarray_array_blas.c lines 276-354):
the one-segment check on the output C, the anchor classification of C,
the classification of the (possibly copied) A and B with the transpose
flip when an operand's order disagrees with the anchor order,
`gpublas_setup`, the precision switch and the cleanup releasing the
listed temporaries. -/
def rgemmDispatch (transA transB : cb_transpose) (Ap Bp C : GpuArray)
    (m n k elsizeN : Nat) (copies : List String) (bk : Backend) : CallResult :=
  if ¬ GpuArray_ISONESEGMENT C then
    { status := .GA_VALUE_ERROR,
      errs := [(.GA_VALUE_ERROR, "Noncontiguous C")], kernels := [],
      copies := copies, clears := copies }
  else
    let cRes : Option (cb_order × Nat) :=
      if C.f_contig then some (.cb_fortran, C.dim 0)
      else if C.c_contig then some (.cb_c, C.dim 1)
      else none
    match cRes with
    | none =>
      { status := .GA_VALUE_ERROR,
        errs := [(.GA_VALUE_ERROR, "Noncontiguous C")], kernels := [],
        copies := copies, clears := copies }
    | some (o, ldc) =>
      let aRes : Option (Nat × cb_transpose) :=
        if Ap.f_contig then
          some (Ap.dim 0, if o = .cb_c then flipTrans transA else transA)
        else if Ap.c_contig then
          some (Ap.dim 1, if o = .cb_fortran then flipTrans transA else transA)
        else none
      match aRes with
      | none =>
        { status := .GA_VALUE_ERROR,
          errs := [(.GA_VALUE_ERROR, "Noncontiguous A")], kernels := [],
          copies := copies, clears := copies }
      | some (lda, tA2) =>
        let bRes : Option (Nat × cb_transpose) :=
          if Bp.f_contig then
            some (Bp.dim 0, if o = .cb_c then flipTrans transB else transB)
          else if Bp.c_contig then
            some (Bp.dim 1, if o = .cb_fortran then flipTrans transB else transB)
          else none
        match bRes with
        | none =>
          { status := .GA_VALUE_ERROR,
            errs := [(.GA_VALUE_ERROR, "Noncontiguous B")], kernels := [],
            copies := copies, clears := copies }
        | some (ldb, tB2) =>
          if bk.setup ≠ .GA_NO_ERROR then
            { status := bk.setup, errs := [], kernels := [],
              copies := copies, clears := copies }
          else
            let call := KernelCall.gemm Ap.typecode o tA2 tB2 m n k
              Ap.data (Ap.offset / elsizeN) lda
              Bp.data (Bp.offset / elsizeN) ldb
              C.data (C.offset / elsizeN) ldc
            { status := bk.run call, errs := [], kernels := [call],
              copies := copies, clears := copies }

/-- `GpuArray_rgemm` (src/gpuarray_array_blas.c lines 204-355). -/
def GpuArray_rgemm (transA transB : cb_transpose) (A B C : GpuArray) (nocopy : Bool)
    (bk : Backend) : CallResult :=
  if A.typecode ≠ .GA_HALF ∧ A.typecode ≠ .GA_FLOAT ∧ A.typecode ≠ .GA_DOUBLE then
    errRet [] .GA_INVALID_ERROR "Unsupported dtype"
  else if A.nd ≠ 2 ∨ B.nd ≠ 2 ∨ C.nd ≠ 2 then
    errRet [] .GA_VALUE_ERROR "Wrong number of dimensions"
  else if B.typecode ≠ A.typecode ∨ C.typecode ≠ A.typecode then
    errRet [] .GA_VALUE_ERROR "Inconsistent dtypes"
  else if ¬ A.aligned ∨ ¬ B.aligned ∨ ¬ C.aligned then
    errRet [] .GA_UNALIGNED_ERROR "Unaligned inputs"
  else
    if (if transB = .cb_no_trans
        then B.dim 0 ≠ (if transA = .cb_no_trans then A.dim 1 else A.dim 0)
        else B.dim 1 ≠ (if transA = .cb_no_trans then A.dim 1 else A.dim 0)) then
      errRet [] .GA_VALUE_ERROR "mismatched shapes"
    else
      if C.dim 0 ≠ (if transA = .cb_no_trans then A.dim 0 else A.dim 1) ∨
         C.dim 1 ≠ (if transB = .cb_no_trans then B.dim 1 else B.dim 0) then
        errRet [] .GA_VALUE_ERROR "mismatched shapes"
      else
        let m := if transA = .cb_no_trans then A.dim 0 else A.dim 1
        let k := if transA = .cb_no_trans then A.dim 1 else A.dim 0
        let n := if transB = .cb_no_trans then B.dim 1 else B.dim 0
        let elsizeN := gpuarray_get_elsize A.typecode
        if ¬ GpuArray_ISONESEGMENT A ∧ nocopy then
          errRet [] .GA_COPY_ERROR "Need copy for A"
        else if ¬ GpuArray_ISONESEGMENT A ∧ bk.copyRes 0 ≠ .GA_NO_ERROR then
          { status := bk.copyRes 0, errs := [], kernels := [], copies := [], clears := [] }
        else
          let Ap := if GpuArray_ISONESEGMENT A then A else mkCopy A .GA_F_ORDER
          let aCopies : List String := if GpuArray_ISONESEGMENT A then [] else ["A"]
          if ¬ GpuArray_ISONESEGMENT B ∧ nocopy then
            -- direct return in the source, bypassing cleanup (no copy can be live here)
            { status := .GA_COPY_ERROR, errs := [(.GA_COPY_ERROR, "Need copy for B")],
              kernels := [], copies := aCopies, clears := [] }
          else if ¬ GpuArray_ISONESEGMENT B ∧ bk.copyRes 1 ≠ .GA_NO_ERROR then
            { status := bk.copyRes 1, errs := [], kernels := [],
              copies := aCopies, clears := aCopies }
          else
            let Bp := if GpuArray_ISONESEGMENT B then B else mkCopy B .GA_F_ORDER
            let bCopies : List String := if GpuArray_ISONESEGMENT B then [] else ["B"]
            rgemmDispatch transA transB Ap Bp C m n k elsizeN (aCopies ++ bCopies) bk

/-- Output check, order/leading-dimension resolution and dispatch of
`GpuArray_rger` (src/gpuarray_array_blas.c lines 412-451): the
one-segment check and classification of the output A, `gpublas_setup`,
the precision switch and the cleanup releasing the listed temporaries. -/
def rgerDispatch (Xp Yp A : GpuArray) (m n elsizeN : Nat)
    (copies : List String) (bk : Backend) : CallResult :=
  let elsize : Int := elsizeN
  if ¬ GpuArray_ISONESEGMENT A then
    { status := .GA_VALUE_ERROR,
      errs := [(.GA_VALUE_ERROR, "Noncontiguous A")], kernels := [],
      copies := copies, clears := copies }
  else
    let ores : Option (cb_order × Nat) :=
      if A.f_contig then some (.cb_fortran, A.dim 0)
      else if A.c_contig then some (.cb_c, A.dim 1)
      else none
    match ores with
    | none =>
      { status := .GA_VALUE_ERROR,
        errs := [(.GA_VALUE_ERROR, "Noncontiguous A")], kernels := [],
        copies := copies, clears := copies }
    | some (o, lda) =>
      if bk.setup ≠ .GA_NO_ERROR then
        { status := bk.setup, errs := [], kernels := [],
          copies := copies, clears := copies }
      else
        let call := KernelCall.ger Xp.typecode o m n
          Xp.data (Xp.offset / elsizeN) (Xp.str 0 / elsize)
          Yp.data (Yp.offset / elsizeN) (Yp.str 0 / elsize)
          A.data (A.offset / elsizeN) lda
        { status := bk.run call, errs := [], kernels := [call],
          copies := copies, clears := copies }

/-- `GpuArray_rger` (src/gpuarray_array_blas.c lines 357-452). -/
def GpuArray_rger (X Y A : GpuArray) (nocopy : Bool) (bk : Backend) : CallResult :=
  if X.typecode ≠ .GA_HALF ∧ X.typecode ≠ .GA_FLOAT ∧ X.typecode ≠ .GA_DOUBLE then
    errRet [] .GA_INVALID_ERROR "Unsupported dtype"
  else if X.nd ≠ 1 ∨ Y.nd ≠ 1 ∨ A.nd ≠ 2 then
    errRet [] .GA_VALUE_ERROR "Wrong number of dimensions"
  else if Y.typecode ≠ X.typecode ∨ A.typecode ≠ X.typecode then
    errRet [] .GA_VALUE_ERROR "Inconsistent dtypes"
  else if ¬ X.aligned ∨ ¬ Y.aligned ∨ ¬ A.aligned then
    errRet [] .GA_UNALIGNED_ERROR "Unaligned inputs"
  else
    if A.dim 0 ≠ X.dim 0 ∨ A.dim 1 ≠ Y.dim 0 then
      errRet [] .GA_VALUE_ERROR "Incompatible shapes"
    else
      let m := X.dim 0
      let n := Y.dim 0
      let elsizeN := gpuarray_get_elsize X.typecode
      let elsize : Int := elsizeN
      if X.str 0 < 0 ∧ nocopy then
        errRet [] .GA_COPY_ERROR "Need copy for X"
      else if X.str 0 < 0 ∧ bk.copyRes 0 ≠ .GA_NO_ERROR then
        { status := bk.copyRes 0, errs := [], kernels := [], copies := [], clears := [] }
      else
        let Xp := if X.str 0 < 0 then mkCopy X .GA_ANY_ORDER else X
        let xCopies : List String := if X.str 0 < 0 then ["X"] else []
        if Y.str 0 < 0 ∧ nocopy then
          -- direct return in the source, bypassing cleanup (no copy can be live here)
          { status := .GA_COPY_ERROR, errs := [(.GA_COPY_ERROR, "Need copy for Y")],
            kernels := [], copies := xCopies, clears := [] }
        else if Y.str 0 < 0 ∧ bk.copyRes 1 ≠ .GA_NO_ERROR then
          { status := bk.copyRes 1, errs := [], kernels := [],
            copies := xCopies, clears := xCopies }
        else
          let Yp := if Y.str 0 < 0 then mkCopy Y .GA_ANY_ORDER else Y
          let yCopies : List String := if Y.str 0 < 0 then ["Y"] else []
          rgerDispatch Xp Yp A m n elsizeN (xCopies ++ yCopies) bk

/-- `is_last_2d_contiguous` (src/gpuarray_array_blas.c lines 454-469):
0 = neither, 1 = row-major (C) trailing 2-D, 2 = column-major (F)
trailing 2-D.  The full-array C-contiguity flag is consulted first. -/
def is_last_2d_contiguous (a : GpuArray) : Nat :=
  let size : Int := a.itemsize
  if GpuArray_IS_C_CONTIGUOUS a then 1
  else if a.str (a.nd - 2) ≤ 0 ∨ a.str (a.nd - 1) ≤ 0 then 0
  else if a.str (a.nd - 2) = size then 2
  else if a.str (a.nd - 1) = size then 1
  else 0

/-- Kernel stage of `GpuArray_rgemmBatch_3d` (src/gpuarray_array_blas.c
lines 620-713): `gpublas_setup`, the strided-batched dispatch, the
`GA_DEVSUP_ERROR` fallback building per-batch offset sequences for the
pointer-array batched kernel, and the cleanup releasing the listed
temporaries.  The fallback's allocation check reproduces the source
literally: the first five disjuncts test a pointer for NULL, the sixth
reads `C_offsets` itself, i.e. it is true when that allocation
SUCCEEDED (when instead `C_offsets` alone is NULL the source proceeds
and would write through the null pointer; the model simply proceeds). -/
def rgemmBatchKernel (o : cb_order) (tA2 tB2 : cb_transpose) (Ap Bp C : GpuArray)
    (m n k lda ldb ldc elsizeN batchCount : Nat) (copies : List String)
    (bk : Backend) : CallResult :=
  let elsize : Int := elsizeN
  if bk.setup ≠ .GA_NO_ERROR then
    { status := bk.setup, errs := [], kernels := [],
      copies := copies, clears := copies }
  else
    let call3 := KernelCall.gemm3D C.typecode o tA2 tB2 m n k
      Ap.data (Ap.offset / elsizeN) lda (Ap.str 0 / elsize)
      Bp.data (Bp.offset / elsizeN) ldb (Bp.str 0 / elsize)
      C.data (C.offset / elsizeN) ldc (C.str 0 / elsize)
      batchCount 0
    let err1 := bk.run call3
    if err1 = .GA_DEVSUP_ERROR then
      if ¬ bk.mallocOk 0 ∨ ¬ bk.mallocOk 1 ∨ ¬ bk.mallocOk 2 ∨
         ¬ bk.mallocOk 3 ∨ ¬ bk.mallocOk 4 ∨ bk.mallocOk 5 then
        { status := .GA_SYS_ERROR,
          errs := [(.GA_SYS_ERROR, "malloc")], kernels := [call3],
          copies := copies, clears := copies }
      else
        let aOffs := (List.range batchCount).map
          (fun i => ((Ap.offset : Int) + (i : Int) * Ap.str 0) / elsize)
        let bOffs := (List.range batchCount).map
          (fun i => ((Bp.offset : Int) + (i : Int) * Bp.str 0) / elsize)
        let cOffs := (List.range batchCount).map
          (fun i => ((C.offset : Int) + (i : Int) * C.str 0) / elsize)
        let call4 := KernelCall.gemmBatch C.typecode o tA2 tB2 m n k
          aOffs lda bOffs ldb cOffs ldc batchCount 0
        { status := bk.run call4, errs := [],
          kernels := [call3, call4], copies := copies, clears := copies }
    else
      { status := err1, errs := [], kernels := [call3],
        copies := copies, clears := copies }

/-- Output check and order/transpose/leading-dimension resolution of
`GpuArray_rgemmBatch_3d` (src/gpuarray_array_blas.c lines 551-618):
trailing-2-D classification of the output C fixing the anchor order,
resolution of A and B (with the degenerate extent-1 leading-dimension
substitution and the transpose flip on order disagreement), handing the
resolved parameters to the kernel stage. -/
def rgemmBatchDispatch (transA transB : cb_transpose) (Ap Bp C : GpuArray)
    (cA cB : Nat) (m n k elsizeN batchCount : Nat) (copies : List String)
    (bk : Backend) : CallResult :=
  let elsize : Int := elsizeN
  let cC := is_last_2d_contiguous C
  if cC = 0 then
    { status := .GA_VALUE_ERROR,
      errs := [(.GA_VALUE_ERROR, "Noncontiguous last 2d C")], kernels := [],
      copies := copies, clears := copies }
  else
    let cRes : Option (cb_order × Nat) :=
      if cC = 2 then
        some (.cb_fortran, if C.dim 2 > 1 then (C.str 2 / elsize).toNat else C.dim 1)
      else if cC = 1 then
        some (.cb_c, if C.dim 1 > 1 then (C.str 1 / elsize).toNat else C.dim 2)
      else none
    match cRes with
    | none =>
      { status := .GA_MISC_ERROR,
        errs := [(.GA_MISC_ERROR, "Invalid internal result for C")],
        kernels := [], copies := copies, clears := copies }
    | some (o, ldc) =>
      let aRes : Option (Nat × cb_transpose) :=
        if cA = 2 then
          some ((if Ap.dim 2 > 1 then (Ap.str 2 / elsize).toNat else Ap.dim 1),
            if o = .cb_c then flipTrans transA else transA)
        else if cA = 1 then
          some ((if Ap.dim 1 > 1 then (Ap.str 1 / elsize).toNat else Ap.dim 2),
            if o = .cb_fortran then flipTrans transA else transA)
        else none
      match aRes with
      | none =>
        { status := .GA_MISC_ERROR,
          errs := [(.GA_MISC_ERROR, "Invalid internal result for A")],
          kernels := [], copies := copies, clears := copies }
      | some (lda, tA2) =>
        let bRes : Option (Nat × cb_transpose) :=
          if cB = 2 then
            some ((if Bp.dim 2 > 1 then (Bp.str 2 / elsize).toNat else Bp.dim 1),
              if o = .cb_c then flipTrans transB else transB)
          else if cB = 1 then
            some ((if Bp.dim 1 > 1 then (Bp.str 1 / elsize).toNat else Bp.dim 2),
              if o = .cb_fortran then flipTrans transB else transB)
          else none
        match bRes with
        | none =>
          { status := .GA_MISC_ERROR,
            errs := [(.GA_MISC_ERROR, "Invalid internal result for B")],
            kernels := [], copies := copies, clears := copies }
        | some (ldb, tB2) =>
          rgemmBatchKernel o tA2 tB2 Ap Bp C m n k lda ldb ldc elsizeN
            batchCount copies bk

/-- `GpuArray_rgemmBatch_3d` (src/gpuarray_array_blas.c lines 471-713). -/
def GpuArray_rgemmBatch_3d (transA transB : cb_transpose) (A B C : GpuArray)
    (nocopy : Bool) (bk : Backend) : CallResult :=
  if A.typecode ≠ .GA_FLOAT ∧ A.typecode ≠ .GA_DOUBLE ∧ A.typecode ≠ .GA_HALF then
    errRet [] .GA_INVALID_ERROR "Unsupported dtype"
  else if A.nd ≠ 3 ∨ B.nd ≠ 3 ∨ C.nd ≠ 3 then
    errRet [] .GA_VALUE_ERROR "Wrong number of dimensions"
  else if B.typecode ≠ A.typecode ∨ C.typecode ≠ A.typecode then
    errRet [] .GA_VALUE_ERROR "Inconsistent dtypes"
  else if ¬ A.aligned ∨ ¬ B.aligned ∨ ¬ C.aligned then
    errRet [] .GA_UNALIGNED_ERROR "Unaligned input"
  else
    if B.dim 0 ≠ A.dim 0 ∨ C.dim 0 ≠ A.dim 0 then
      errRet [] .GA_VALUE_ERROR "Mismatched first dimension"
    else
      if (if transB = .cb_no_trans
          then B.dim 1 ≠ (if transA = .cb_no_trans then A.dim 2 else A.dim 1)
          else B.dim 2 ≠ (if transA = .cb_no_trans then A.dim 2 else A.dim 1)) then
        errRet [] .GA_VALUE_ERROR "Mismatched shape"
      else
        if C.dim 1 ≠ (if transA = .cb_no_trans then A.dim 1 else A.dim 2) ∨
           C.dim 2 ≠ (if transB = .cb_no_trans then B.dim 2 else B.dim 1) then
          errRet [] .GA_VALUE_ERROR "Mismatched shape"
        else
          let batchCount := A.dim 0
          let m := if transA = .cb_no_trans then A.dim 1 else A.dim 2
          let k := if transA = .cb_no_trans then A.dim 2 else A.dim 1
          let n := if transB = .cb_no_trans then B.dim 2 else B.dim 1
          let elsizeN := gpuarray_get_elsize A.typecode
          let elsize : Int := elsizeN
          if is_last_2d_contiguous A = 0 ∧ nocopy then
            errRet [] .GA_COPY_ERROR "Need copy for A"
          else if is_last_2d_contiguous A = 0 ∧ bk.copyRes 0 ≠ .GA_NO_ERROR then
            { status := bk.copyRes 0, errs := [], kernels := [], copies := [], clears := [] }
          else
            let Ap := if is_last_2d_contiguous A = 0 then mkCopy A .GA_C_ORDER else A
            let cA := if is_last_2d_contiguous A = 0 then 1 else is_last_2d_contiguous A
            let aCopies : List String := if is_last_2d_contiguous A = 0 then ["A"] else []
            if is_last_2d_contiguous B = 0 ∧ nocopy then
              -- direct return in the source, bypassing cleanup (no copy can be live here)
              { status := .GA_COPY_ERROR, errs := [(.GA_COPY_ERROR, "Need copy for B")],
                kernels := [], copies := aCopies, clears := [] }
            else if is_last_2d_contiguous B = 0 ∧ bk.copyRes 1 ≠ .GA_NO_ERROR then
              { status := bk.copyRes 1, errs := [], kernels := [],
                copies := aCopies, clears := aCopies }
            else
              let Bp := if is_last_2d_contiguous B = 0 then mkCopy B .GA_C_ORDER else B
              let cB := if is_last_2d_contiguous B = 0 then 1 else is_last_2d_contiguous B
              let bCopies : List String := if is_last_2d_contiguous B = 0 then ["B"] else []
              rgemmBatchDispatch transA transB Ap Bp C cA cB m n k elsizeN
                batchCount (aCopies ++ bCopies) bk

/-- An all-green oracle: setup and every kernel succeed, every copy and
malloc succeeds. -/
def bkOK : Backend :=
  { setup := .GA_NO_ERROR
    copyRes := fun _ => .GA_NO_ERROR
    mallocOk := fun _ => true
    run := fun _ => .GA_NO_ERROR }

/-- An oracle identical to `bkOK` except that the strided-batched gemm
kernel reports the parameter combination unsupported. -/
def bkDevsup : Backend :=
  { setup := .GA_NO_ERROR
    copyRes := fun _ => .GA_NO_ERROR
    mallocOk := fun _ => true
    run := fun c =>
      match c with
      | .gemm3D .. => .GA_DEVSUP_ERROR
      | _ => .GA_NO_ERROR }

/-- Recognizer for the legacy pointer-array batched kernel. -/
def KernelCall.isPtrArrayBatch : KernelCall → Bool
  | .gemmBatch .. => true
  | _ => false

/-- The element type is one of the three supported precisions. -/
def supportedType (t : Typecode) : Prop :=
  t = .GA_HALF ∨ t = .GA_FLOAT ∨ t = .GA_DOUBLE

/-- `GpuArray_rdot` validation preconditions up to (and including) the
shape check. -/
def dotPre (X Y Z : GpuArray) : Prop :=
  supportedType X.typecode ∧ X.nd = 1 ∧ Y.nd = 1 ∧ Z.nd = 0 ∧
  Y.typecode = X.typecode ∧ Z.typecode = X.typecode ∧
  X.aligned = true ∧ Y.aligned = true ∧ Z.aligned = true ∧ X.dim 0 = Y.dim 0

/-- `GpuArray_rgemv` validation preconditions before the shape check. -/
def gemvPre (A X Y : GpuArray) : Prop :=
  supportedType A.typecode ∧ A.nd = 2 ∧ X.nd = 1 ∧ Y.nd = 1 ∧
  X.typecode = A.typecode ∧ Y.typecode = A.typecode ∧
  A.aligned = true ∧ X.aligned = true ∧ Y.aligned = true

/-- The gemv shape equations under the caller-supplied transpose flag. -/
def gemvShapeOK (transA : cb_transpose) (A X Y : GpuArray) : Prop :=
  Y.dim 0 = (if transA = .cb_no_trans then A.dim 0 else A.dim 1) ∧
  X.dim 0 = (if transA = .cb_no_trans then A.dim 1 else A.dim 0)

/-- `GpuArray_rgemm` validation preconditions before the shape checks. -/
def gemmPre (A B C : GpuArray) : Prop :=
  supportedType A.typecode ∧ A.nd = 2 ∧ B.nd = 2 ∧ C.nd = 2 ∧
  B.typecode = A.typecode ∧ C.typecode = A.typecode ∧
  A.aligned = true ∧ B.aligned = true ∧ C.aligned = true

/-- The gemm shape equations under the caller-supplied transpose flags:
effective A is m×k, effective B must be k×n, C must be m×n. -/
def gemmShapeOK (transA transB : cb_transpose) (A B C : GpuArray) : Prop :=
  (if transB = .cb_no_trans then B.dim 0 else B.dim 1) =
    (if transA = .cb_no_trans then A.dim 1 else A.dim 0) ∧
  C.dim 0 = (if transA = .cb_no_trans then A.dim 0 else A.dim 1) ∧
  C.dim 1 = (if transB = .cb_no_trans then B.dim 1 else B.dim 0)

/-- `GpuArray_rger` validation preconditions before the shape check. -/
def gerPre (X Y A : GpuArray) : Prop :=
  supportedType X.typecode ∧ X.nd = 1 ∧ Y.nd = 1 ∧ A.nd = 2 ∧
  Y.typecode = X.typecode ∧ A.typecode = X.typecode ∧
  X.aligned = true ∧ Y.aligned = true ∧ A.aligned = true

/-- The ger shape equations. -/
def gerShapeOK (X Y A : GpuArray) : Prop :=
  A.dim 0 = X.dim 0 ∧ A.dim 1 = Y.dim 0

/-- `GpuArray_rgemmBatch_3d` validation preconditions before the
batch-dimension and shape checks. -/
def batchPre (A B C : GpuArray) : Prop :=
  supportedType A.typecode ∧ A.nd = 3 ∧ B.nd = 3 ∧ C.nd = 3 ∧
  B.typecode = A.typecode ∧ C.typecode = A.typecode ∧
  A.aligned = true ∧ B.aligned = true ∧ C.aligned = true

/-- The batched-gemm leading (batch) dimension equality. -/
def batchDimsOK (A B C : GpuArray) : Prop :=
  B.dim 0 = A.dim 0 ∧ C.dim 0 = A.dim 0

/-- The batched-gemm shape equations on the trailing two dimensions,
under the caller-supplied transpose flags. -/
def batchTrailingShapeOK (transA transB : cb_transpose) (A B C : GpuArray) : Prop :=
  (if transB = .cb_no_trans then B.dim 1 else B.dim 2) =
    (if transA = .cb_no_trans then A.dim 2 else A.dim 1) ∧
  C.dim 1 = (if transA = .cb_no_trans then A.dim 1 else A.dim 2) ∧
  C.dim 2 = (if transB = .cb_no_trans then B.dim 2 else B.dim 1)

/-- The storage order the non-batched resolver assigns to a one-segment
operand: the F-contiguous test is taken first, so an operand that is
both C- and F-contiguous classifies as column-major. -/
def classifyOrder (a : GpuArray) : cb_order :=
  if a.f_contig then .cb_fortran else .cb_c

/-- The storage order the batched resolver assigns to an operand whose
trailing 2-D part is contiguous: classification 2 is column-major,
classification 1 row-major. -/
def classifyOrderBatch (a : GpuArray) : cb_order :=
  if is_last_2d_contiguous a = 2 then .cb_fortran else .cb_c

/-- The calling order handed to a backend kernel, for the kernels that
take one. -/
def KernelCall.korder : KernelCall → Option cb_order
  | .gemv _ o .. => some o
  | .ger _ o .. => some o
  | .gemm _ o .. => some o
  | .gemm3D _ o .. => some o
  | .gemmBatch _ o .. => some o
  | _ => none

/-- The transpose flag for operand A handed to a backend kernel. -/
def KernelCall.ktransA : KernelCall → Option cb_transpose
  | .gemv _ _ t .. => some t
  | .gemm _ _ t _ .. => some t
  | .gemm3D _ _ t _ .. => some t
  | .gemmBatch _ _ t _ .. => some t
  | _ => none

/-- The transpose flag for operand B handed to a backend kernel. -/
def KernelCall.ktransB : KernelCall → Option cb_transpose
  | .gemm _ _ _ t .. => some t
  | .gemm3D _ _ _ t .. => some t
  | .gemmBatch _ _ _ t .. => some t
  | _ => none

/-- The leading dimension of operand A handed to a backend kernel. -/
def KernelCall.klda : KernelCall → Option Nat
  | .gemv _ _ _ _ _ _ _ l .. => some l
  | .ger _ _ _ _ _ _ _ _ _ _ _ _ l => some l
  | .gemm _ _ _ _ _ _ _ _ _ l .. => some l
  | .gemm3D _ _ _ _ _ _ _ _ _ l .. => some l
  | .gemmBatch _ _ _ _ _ _ _ _ l .. => some l
  | _ => none

/-- The leading dimension of the output C handed to a backend kernel. -/
def KernelCall.kldc : KernelCall → Option Nat
  | .gemm _ _ _ _ _ _ _ _ _ _ _ _ _ _ _ l => some l
  | .gemm3D _ _ _ _ _ _ _ _ _ _ _ _ _ _ _ _ _ l _ _ _ => some l
  | .gemmBatch _ _ _ _ _ _ _ _ _ _ _ _ l _ _ => some l
  | _ => none

instance (t : Typecode) : Decidable (supportedType t) := by
  unfold supportedType; exact inferInstance

instance (X Y Z : GpuArray) : Decidable (dotPre X Y Z) := by
  unfold dotPre; exact inferInstance

instance (A X Y : GpuArray) : Decidable (gemvPre A X Y) := by
  unfold gemvPre; exact inferInstance

instance (t : cb_transpose) (A X Y : GpuArray) : Decidable (gemvShapeOK t A X Y) := by
  unfold gemvShapeOK; exact inferInstance

instance (A B C : GpuArray) : Decidable (gemmPre A B C) := by
  unfold gemmPre; exact inferInstance

instance (tA tB : cb_transpose) (A B C : GpuArray) :
    Decidable (gemmShapeOK tA tB A B C) := by
  unfold gemmShapeOK; exact inferInstance

instance (X Y A : GpuArray) : Decidable (gerPre X Y A) := by
  unfold gerPre; exact inferInstance

instance (X Y A : GpuArray) : Decidable (gerShapeOK X Y A) := by
  unfold gerShapeOK; exact inferInstance

instance (A B C : GpuArray) : Decidable (batchPre A B C) := by
  unfold batchPre; exact inferInstance

instance (A B C : GpuArray) : Decidable (batchDimsOK A B C) := by
  unfold batchDimsOK; exact inferInstance

instance (tA tB : cb_transpose) (A B C : GpuArray) :
    Decidable (batchTrailingShapeOK tA tB A B C) := by
  unfold batchTrailingShapeOK; exact inferInstance

/-- C3: the source's dot dtype-consistency check (lines 31-32) calls
`error_set` WITHOUT `return`: with X single precision and Y double
precision the mismatch is recorded, yet execution falls through and the
backend dot kernel is still invoked, returning its (successful) status.
The claim that the call fails and no kernel is invoked is right about
the evident intent (every sibling check returns) but wrong about the
code. -/
theorem rdot_dtype_mismatch_still_invokes_kernel :
    (GpuArray_rdot ⟨.GA_FLOAT, [3], [4], 0, true, 1⟩
        ⟨.GA_DOUBLE, [3], [8], 0, true, 2⟩
        ⟨.GA_FLOAT, [], [], 0, true, 3⟩ false bkOK).status = .GA_NO_ERROR ∧
    (Status.GA_VALUE_ERROR, "Inconsistent dtypes") ∈
      (GpuArray_rdot ⟨.GA_FLOAT, [3], [4], 0, true, 1⟩
        ⟨.GA_DOUBLE, [3], [8], 0, true, 2⟩
        ⟨.GA_FLOAT, [], [], 0, true, 3⟩ false bkOK).errs ∧
    (GpuArray_rdot ⟨.GA_FLOAT, [3], [4], 0, true, 1⟩
        ⟨.GA_DOUBLE, [3], [8], 0, true, 2⟩
        ⟨.GA_FLOAT, [], [], 0, true, 3⟩ false bkOK).kernels ≠ [] := by
  decide

/-- C2: in the batched fallback the allocation check reads
`... || C_offsets` where `... || C_offsets == NULL` was intended, so
when the strided-batched kernel reports `GA_DEVSUP_ERROR` and ALL six
host allocations succeed, the layer returns `GA_SYS_ERROR` and never
dispatches the pointer-array batched kernel. -/
theorem rgemmBatch_fallback_returns_syserror_on_successful_malloc :
    (GpuArray_rgemmBatch_3d .cb_no_trans .cb_no_trans
        ⟨.GA_FLOAT, [2, 3, 4], [48, 16, 4], 0, true, 1⟩
        ⟨.GA_FLOAT, [2, 4, 5], [80, 20, 4], 0, true, 2⟩
        ⟨.GA_FLOAT, [2, 3, 5], [60, 20, 4], 0, true, 3⟩ false bkDevsup).status =
      .GA_SYS_ERROR ∧
    (∀ c ∈ (GpuArray_rgemmBatch_3d .cb_no_trans .cb_no_trans
        ⟨.GA_FLOAT, [2, 3, 4], [48, 16, 4], 0, true, 1⟩
        ⟨.GA_FLOAT, [2, 4, 5], [80, 20, 4], 0, true, 2⟩
        ⟨.GA_FLOAT, [2, 3, 5], [60, 20, 4], 0, true, 3⟩ false bkDevsup).kernels,
      c.isPtrArrayBatch = false) := by
  decide

/-- C4, counterexample: a gemv call whose output Y is noncontiguous
(positive stride of two elements) does NOT fail: it succeeds and the
backend kernel is invoked with an explicit stride, refuting the claim
that every noncontiguous output causes a hard error. -/
theorem rgemv_noncontiguous_output_accepted :
    (⟨.GA_FLOAT, [2], [8], 0, true, 3⟩ : GpuArray).c_contig = false ∧
    (GpuArray_rgemv .cb_no_trans ⟨.GA_FLOAT, [2, 2], [4, 8], 0, true, 1⟩
        ⟨.GA_FLOAT, [2], [4], 0, true, 2⟩
        ⟨.GA_FLOAT, [2], [8], 0, true, 3⟩ false bkOK).status = .GA_NO_ERROR ∧
    (GpuArray_rgemv .cb_no_trans ⟨.GA_FLOAT, [2, 2], [4, 8], 0, true, 1⟩
        ⟨.GA_FLOAT, [2], [4], 0, true, 2⟩
        ⟨.GA_FLOAT, [2], [8], 0, true, 3⟩ false bkOK).kernels ≠ [] := by
  decide

/-- C4 (amended): the output operand is never silently fixed.  For gemv
the output Y is a hard `GA_VALUE_ERROR` when its stride is negative (a
noncontiguous Y with non-negative stride is instead passed through with
an explicit stride); for gemm a non-one-segment output C, and for ger a
non-one-segment output A, is a hard `GA_VALUE_ERROR`.  In each case the
failure occurs regardless of the nocopy flag, no backend kernel runs
and no temporary copy of any operand is materialized. -/
theorem output_operands_hard_fail :
    (∀ (transA : cb_transpose) (A X Y : GpuArray) (nocopy : Bool) (bk : Backend),
      gemvPre A X Y → gemvShapeOK transA A X Y →
      GpuArray_ISONESEGMENT A = true → 0 ≤ X.str 0 → Y.str 0 < 0 →
      GpuArray_rgemv transA A X Y nocopy bk =
        { status := .GA_VALUE_ERROR,
          errs := [(.GA_VALUE_ERROR, "Negative strides for Y")],
          kernels := [], copies := [], clears := [] }) ∧
    (∀ (transA transB : cb_transpose) (A B C : GpuArray) (nocopy : Bool) (bk : Backend),
      gemmPre A B C → gemmShapeOK transA transB A B C →
      GpuArray_ISONESEGMENT A = true → GpuArray_ISONESEGMENT B = true →
      GpuArray_ISONESEGMENT C = false →
      GpuArray_rgemm transA transB A B C nocopy bk =
        { status := .GA_VALUE_ERROR,
          errs := [(.GA_VALUE_ERROR, "Noncontiguous C")],
          kernels := [], copies := [], clears := [] }) ∧
    (∀ (X Y A : GpuArray) (nocopy : Bool) (bk : Backend),
      gerPre X Y A → gerShapeOK X Y A →
      0 ≤ X.str 0 → 0 ≤ Y.str 0 → GpuArray_ISONESEGMENT A = false →
      GpuArray_rger X Y A nocopy bk =
        { status := .GA_VALUE_ERROR,
          errs := [(.GA_VALUE_ERROR, "Noncontiguous A")],
          kernels := [], copies := [], clears := [] }) := by
  refine ⟨?_, ?_, ?_⟩
  · rintro transA A X Y nocopy bk ⟨hT, hAnd, hXnd, hYnd, hXt, hYt, hAal, hXal, hYal⟩
      ⟨hs1, hs2⟩ hseg hX hY
    have hX0 : ¬ X.str 0 < 0 := not_lt.mpr hX
    rcases hT with h | h | h <;>
      simp [GpuArray_rgemv, rgemvDispatch, h, hAnd, hXnd, hYnd, hXt, hYt, hAal, hXal,
        hYal, hs1, hs2, hseg, hX0, hY]
  · rintro transA transB A B C nocopy bk ⟨hT, hAnd, hBnd, hCnd, hBt, hCt, hAal, hBal, hCal⟩
      ⟨hs1, hs2, hs3⟩ hsegA hsegB hsegC
    by_cases htB : transB = .cb_no_trans <;>
      rcases hT with h | h | h <;>
      simp_all [GpuArray_rgemm, rgemmDispatch]
  · rintro X Y A nocopy bk ⟨hT, hXnd, hYnd, hAnd, hYt, hAt, hXal, hYal, hAal⟩
      ⟨hs1, hs2⟩ hX hY hseg
    have hX0 : ¬ X.str 0 < 0 := not_lt.mpr hX
    have hY0 : ¬ Y.str 0 < 0 := not_lt.mpr hY
    rcases hT with h | h | h <;>
      simp [GpuArray_rger, rgerDispatch, h, hXnd, hYnd, hAnd, hYt, hAt, hXal, hYal,
        hAal, hs1, hs2, hX0, hY0, hseg]

/-- C4 amended claim instantiated: a gemv with negative-stride Y, a gemm
with non-one-segment C and a ger with non-one-segment A each fail hard
with no kernel invocation and no temporary. -/
theorem output_operands_hard_fail_witness :
    (gemvPre ⟨.GA_FLOAT, [2, 2], [4, 8], 0, true, 1⟩ ⟨.GA_FLOAT, [2], [4], 0, true, 2⟩
        ⟨.GA_FLOAT, [2], [-8], 0, true, 3⟩ ∧
      gemvShapeOK .cb_no_trans ⟨.GA_FLOAT, [2, 2], [4, 8], 0, true, 1⟩
        ⟨.GA_FLOAT, [2], [4], 0, true, 2⟩ ⟨.GA_FLOAT, [2], [-8], 0, true, 3⟩ ∧
      GpuArray_rgemv .cb_no_trans ⟨.GA_FLOAT, [2, 2], [4, 8], 0, true, 1⟩
        ⟨.GA_FLOAT, [2], [4], 0, true, 2⟩ ⟨.GA_FLOAT, [2], [-8], 0, true, 3⟩ true bkOK =
        { status := .GA_VALUE_ERROR,
          errs := [(.GA_VALUE_ERROR, "Negative strides for Y")],
          kernels := [], copies := [], clears := [] }) ∧
    (GpuArray_ISONESEGMENT ⟨.GA_FLOAT, [2, 2], [4, 16], 0, true, 3⟩ = false ∧
      GpuArray_rgemm .cb_no_trans .cb_no_trans ⟨.GA_FLOAT, [2, 2], [4, 8], 0, true, 1⟩
        ⟨.GA_FLOAT, [2, 2], [4, 8], 0, true, 2⟩ ⟨.GA_FLOAT, [2, 2], [4, 16], 0, true, 3⟩
        true bkOK =
        { status := .GA_VALUE_ERROR,
          errs := [(.GA_VALUE_ERROR, "Noncontiguous C")],
          kernels := [], copies := [], clears := [] }) ∧
    (GpuArray_rger ⟨.GA_FLOAT, [2], [4], 0, true, 1⟩ ⟨.GA_FLOAT, [2], [4], 0, true, 2⟩
        ⟨.GA_FLOAT, [2, 2], [4, 16], 0, true, 3⟩ false bkOK =
        { status := .GA_VALUE_ERROR,
          errs := [(.GA_VALUE_ERROR, "Noncontiguous A")],
          kernels := [], copies := [], clears := [] }) := by
  refine ⟨⟨by decide, by decide, ?_⟩, ⟨by decide, ?_⟩, ?_⟩
  · exact output_operands_hard_fail.1 .cb_no_trans _ _ _ true bkOK
      (by decide) (by decide) (by decide) (by decide) (by decide)
  · exact output_operands_hard_fail.2.1 .cb_no_trans .cb_no_trans _ _ _ true bkOK
      (by decide) (by decide) (by decide) (by decide) (by decide)
  · exact output_operands_hard_fail.2.2 _ _ _ false bkOK
      (by decide) (by decide) (by decide) (by decide) (by decide)

/-- C7: a gemm call whose inner dimensions are incompatible under the
caller-supplied transpose flags (effective A is m×k, effective B is j×n
with j ≠ k) returns the shape-mismatch error immediately: no backend
kernel entry point is invoked, no copy is made, no temporary released. -/
theorem gemm_inner_dim_mismatch_no_kernel
    (transA transB : cb_transpose) (A B C : GpuArray) (nocopy : Bool) (bk : Backend)
    (hpre : gemmPre A B C)
    (hmm : (if transB = .cb_no_trans then B.dim 0 else B.dim 1) ≠
      (if transA = .cb_no_trans then A.dim 1 else A.dim 0)) :
    GpuArray_rgemm transA transB A B C nocopy bk =
      { status := .GA_VALUE_ERROR,
        errs := [(.GA_VALUE_ERROR, "mismatched shapes")],
        kernels := [], copies := [], clears := [] } := by
  obtain ⟨hT, hAnd, hBnd, hCnd, hBt, hCt, hAal, hBal, hCal⟩ := hpre
  by_cases htB : transB = .cb_no_trans <;>
    rcases hT with h | h | h <;>
    simp_all [GpuArray_rgemm, errRet]

/-- C7 instantiated: sgemm of a 2×3 A by a 4×2 B returns the
shape-mismatch record without touching the backend. -/
theorem gemm_inner_dim_mismatch_no_kernel_witness :
    gemmPre ⟨.GA_FLOAT, [2, 3], [4, 8], 0, true, 1⟩
      ⟨.GA_FLOAT, [4, 2], [4, 16], 0, true, 2⟩
      ⟨.GA_FLOAT, [2, 2], [4, 8], 0, true, 3⟩ ∧
    GpuArray_rgemm .cb_no_trans .cb_no_trans ⟨.GA_FLOAT, [2, 3], [4, 8], 0, true, 1⟩
      ⟨.GA_FLOAT, [4, 2], [4, 16], 0, true, 2⟩
      ⟨.GA_FLOAT, [2, 2], [4, 8], 0, true, 3⟩ false bkOK =
      { status := .GA_VALUE_ERROR,
        errs := [(.GA_VALUE_ERROR, "mismatched shapes")],
        kernels := [], copies := [], clears := [] } :=
  ⟨by decide,
    gemm_inner_dim_mismatch_no_kernel .cb_no_trans .cb_no_trans _ _ _ false bkOK
      (by decide) (by decide)⟩

/-- `is_last_2d_contiguous` only ever returns 0, 1 or 2. -/
theorem is_last_2d_contiguous_cases (a : GpuArray) :
    is_last_2d_contiguous a = 0 ∨ is_last_2d_contiguous a = 1 ∨
      is_last_2d_contiguous a = 2 := by
  simp only [is_last_2d_contiguous]
  split_ifs <;> simp

/-- A one-segment operand is either F-contiguous or (failing that)
C-contiguous. -/
theorem fContigOr (a : GpuArray) (h : GpuArray_ISONESEGMENT a = true) :
    a.f_contig = true ∨ (a.f_contig = false ∧ a.c_contig = true) := by
  cases hf : a.f_contig
  · refine Or.inr ⟨rfl, ?_⟩
    unfold GpuArray_ISONESEGMENT at h
    rw [hf, Bool.or_false] at h
    exact h
  · exact Or.inl rfl

/-- Once `gpublas_setup` succeeds, the batched kernel stage invokes at
least one kernel, and every kernel it invokes carries exactly the
resolved order and transpose flags it was handed. -/
theorem rgemmBatchKernel_resolved (o : cb_order) (tA2 tB2 : cb_transpose)
    (Ap Bp C : GpuArray) (m n k lda ldb ldc elsizeN batchCount : Nat)
    (copies : List String) (bk : Backend) (hsu : bk.setup = .GA_NO_ERROR) :
    (rgemmBatchKernel o tA2 tB2 Ap Bp C m n k lda ldb ldc elsizeN batchCount
      copies bk).kernels ≠ [] ∧
    ∀ kc ∈ (rgemmBatchKernel o tA2 tB2 Ap Bp C m n k lda ldb ldc elsizeN batchCount
      copies bk).kernels,
      kc.korder = some o ∧ kc.ktransA = some tA2 ∧ kc.ktransB = some tB2 := by
  simp only [rgemmBatchKernel]
  split_ifs <;>
    simp_all [KernelCall.korder, KernelCall.ktransA, KernelCall.ktransB]

/-- Once `gpublas_setup` succeeds, every kernel invoked by the batched
kernel stage carries exactly the resolved leading dimensions it was
handed. -/
theorem rgemmBatchKernel_lds (o : cb_order) (tA2 tB2 : cb_transpose)
    (Ap Bp C : GpuArray) (m n k lda ldb ldc elsizeN batchCount : Nat)
    (copies : List String) (bk : Backend) (hsu : bk.setup = .GA_NO_ERROR) :
    (rgemmBatchKernel o tA2 tB2 Ap Bp C m n k lda ldb ldc elsizeN batchCount
      copies bk).kernels ≠ [] ∧
    ∀ kc ∈ (rgemmBatchKernel o tA2 tB2 Ap Bp C m n k lda ldb ldc elsizeN batchCount
      copies bk).kernels, kc.klda = some lda ∧ kc.kldc = some ldc := by
  simp only [rgemmBatchKernel]
  split_ifs <;> simp_all [KernelCall.klda, KernelCall.kldc]

/-- Once `gpublas_setup` succeeds, the batched kernel stage always
invokes at least the strided-batched kernel. -/
theorem rgemmBatchKernel_dispatches (o : cb_order) (tA2 tB2 : cb_transpose)
    (Ap Bp C : GpuArray) (m n k lda ldb ldc elsizeN batchCount : Nat)
    (copies : List String) (bk : Backend) (hsu : bk.setup = .GA_NO_ERROR) :
    (rgemmBatchKernel o tA2 tB2 Ap Bp C m n k lda ldb ldc elsizeN batchCount
      copies bk).kernels ≠ [] := by
  simp only [rgemmBatchKernel]
  split_ifs <;> simp_all

/-- C5: the shape checks are computed from the effective row/column
counts under the caller-supplied transpose flags, and batched-gemm
additionally requires an equal leading (batch) dimension across the
three operands.  When the transpose-adjusted equations fail, the call
returns the shape-mismatch error immediately with no kernel invocation
and no copy; when they hold, the shape gate passes and, under otherwise
favourable layouts and a willing backend, the call reaches kernel
dispatch. -/
theorem shape_checks_use_effective_dims :
    (∀ (transA : cb_transpose) (A X Y : GpuArray) (nocopy : Bool) (bk : Backend),
      gemvPre A X Y → ¬ gemvShapeOK transA A X Y →
      GpuArray_rgemv transA A X Y nocopy bk =
        { status := .GA_VALUE_ERROR,
          errs := [(.GA_VALUE_ERROR, "Inconsistent shapes")],
          kernels := [], copies := [], clears := [] }) ∧
    (∀ (transA : cb_transpose) (A X Y : GpuArray) (nocopy : Bool) (bk : Backend),
      gemvPre A X Y → gemvShapeOK transA A X Y →
      GpuArray_ISONESEGMENT A = true → 0 ≤ X.str 0 → 0 ≤ Y.str 0 →
      bk.setup = .GA_NO_ERROR →
      (GpuArray_rgemv transA A X Y nocopy bk).kernels ≠ []) ∧
    (∀ (transA transB : cb_transpose) (A B C : GpuArray) (nocopy : Bool) (bk : Backend),
      gemmPre A B C → ¬ gemmShapeOK transA transB A B C →
      GpuArray_rgemm transA transB A B C nocopy bk =
        { status := .GA_VALUE_ERROR,
          errs := [(.GA_VALUE_ERROR, "mismatched shapes")],
          kernels := [], copies := [], clears := [] }) ∧
    (∀ (transA transB : cb_transpose) (A B C : GpuArray) (nocopy : Bool) (bk : Backend),
      gemmPre A B C → gemmShapeOK transA transB A B C →
      GpuArray_ISONESEGMENT A = true → GpuArray_ISONESEGMENT B = true →
      GpuArray_ISONESEGMENT C = true → bk.setup = .GA_NO_ERROR →
      (GpuArray_rgemm transA transB A B C nocopy bk).kernels ≠ []) ∧
    (∀ (transA transB : cb_transpose) (A B C : GpuArray) (nocopy : Bool) (bk : Backend),
      batchPre A B C → ¬ batchDimsOK A B C →
      GpuArray_rgemmBatch_3d transA transB A B C nocopy bk =
        { status := .GA_VALUE_ERROR,
          errs := [(.GA_VALUE_ERROR, "Mismatched first dimension")],
          kernels := [], copies := [], clears := [] }) ∧
    (∀ (transA transB : cb_transpose) (A B C : GpuArray) (nocopy : Bool) (bk : Backend),
      batchPre A B C → batchDimsOK A B C →
      ¬ batchTrailingShapeOK transA transB A B C →
      GpuArray_rgemmBatch_3d transA transB A B C nocopy bk =
        { status := .GA_VALUE_ERROR,
          errs := [(.GA_VALUE_ERROR, "Mismatched shape")],
          kernels := [], copies := [], clears := [] }) ∧
    (∀ (transA transB : cb_transpose) (A B C : GpuArray) (nocopy : Bool) (bk : Backend),
      batchPre A B C → batchDimsOK A B C →
      batchTrailingShapeOK transA transB A B C →
      is_last_2d_contiguous A ≠ 0 → is_last_2d_contiguous B ≠ 0 →
      is_last_2d_contiguous C ≠ 0 → bk.setup = .GA_NO_ERROR →
      (GpuArray_rgemmBatch_3d transA transB A B C nocopy bk).kernels ≠ []) := by
  refine ⟨?_, ?_, ?_, ?_, ?_, ?_, ?_⟩
  · rintro transA A X Y nocopy bk ⟨hT, hAnd, hXnd, hYnd, hXt, hYt, hAal, hXal, hYal⟩ hs
    rw [gemvShapeOK, not_and_or] at hs
    rcases hT with h | h | h <;>
      rcases hs with hs | hs <;>
      simp_all [GpuArray_rgemv, errRet]
  · rintro transA A X Y nocopy bk ⟨hT, hAnd, hXnd, hYnd, hXt, hYt, hAal, hXal, hYal⟩
      ⟨hs1, hs2⟩ hseg hX hY hsu
    rcases fContigOr A hseg with hAf | ⟨hAf, hAc⟩ <;>
      rcases hT with h | h | h <;>
      simp_all [GpuArray_rgemv, rgemvDispatch, not_lt.mpr hX, not_lt.mpr hY]
  · rintro transA transB A B C nocopy bk ⟨hT, hAnd, hBnd, hCnd, hBt, hCt, hAal, hBal, hCal⟩ hs
    rw [gemmShapeOK, not_and_or, not_and_or] at hs
    by_cases htB : transB = .cb_no_trans <;>
      rcases hT with h | h | h <;>
      rcases hs with hs | hs | hs <;>
      (try rcases hs with hs | hs) <;>
      simp_all [GpuArray_rgemm, errRet] <;>
      (try (split_ifs <;> simp_all))
  · rintro transA transB A B C nocopy bk ⟨hT, hAnd, hBnd, hCnd, hBt, hCt, hAal, hBal, hCal⟩
      ⟨hs1, hs2, hs3⟩ hsegA hsegB hsegC hsu
    rcases fContigOr A hsegA with hAf | ⟨hAf, hAc⟩ <;>
      rcases fContigOr B hsegB with hBf | ⟨hBf, hBc⟩ <;>
      rcases fContigOr C hsegC with hCf | ⟨hCf, hCc⟩ <;>
      by_cases htB : transB = .cb_no_trans <;>
      rcases hT with h | h | h <;>
      simp_all [GpuArray_rgemm, rgemmDispatch]
  · rintro transA transB A B C nocopy bk ⟨hT, hAnd, hBnd, hCnd, hBt, hCt, hAal, hBal, hCal⟩ hd
    rw [batchDimsOK, not_and_or] at hd
    rcases hT with h | h | h <;>
      rcases hd with hd | hd <;>
      simp_all [GpuArray_rgemmBatch_3d, errRet]
  · rintro transA transB A B C nocopy bk ⟨hT, hAnd, hBnd, hCnd, hBt, hCt, hAal, hBal, hCal⟩
      ⟨hd1, hd2⟩ hs
    rw [batchTrailingShapeOK, not_and_or, not_and_or] at hs
    by_cases htB : transB = .cb_no_trans <;>
      rcases hT with h | h | h <;>
      rcases hs with hs | hs | hs <;>
      (try rcases hs with hs | hs) <;>
      simp_all [GpuArray_rgemmBatch_3d, errRet] <;>
      (try (split_ifs <;> simp_all))
  · rintro transA transB A B C nocopy bk ⟨hT, hAnd, hBnd, hCnd, hBt, hCt, hAal, hBal, hCal⟩
      ⟨hd1, hd2⟩ ⟨hs1, hs2, hs3⟩ hcA hcB hcC hsu
    rcases is_last_2d_contiguous_cases A with hA | hA | hA <;>
      rcases is_last_2d_contiguous_cases B with hB | hB | hB <;>
      rcases is_last_2d_contiguous_cases C with hC | hC | hC <;>
      (try exact absurd hA hcA) <;> (try exact absurd hB hcB) <;>
      (try exact absurd hC hcC) <;>
      by_cases htB : transB = .cb_no_trans <;>
      rcases hT with h | h | h <;>
      (simp [htB] at hs1 hs3
       simp [GpuArray_rgemmBatch_3d, rgemmBatchDispatch, h, hAnd, hBnd, hCnd, hBt, hCt,
         hAal, hBal, hCal, hd1, hd2, hs1, hs2, hs3, hA, hB, hC, htB]
       try exact rgemmBatchKernel_dispatches _ _ _ _ _ _ _ _ _ _ _ _ _ _ _ _ hsu)

/-- C5 instantiated: a gemv with transA set accepts the transposed
shapes and reaches dispatch, while a batched call with unequal batch
dimensions returns the batch-dimension mismatch with no kernel. -/
theorem shape_checks_use_effective_dims_witness :
    (gemvPre ⟨.GA_FLOAT, [2, 3], [12, 4], 0, true, 1⟩ ⟨.GA_FLOAT, [2], [4], 0, true, 2⟩
        ⟨.GA_FLOAT, [3], [4], 0, true, 3⟩ ∧
      gemvShapeOK .cb_trans ⟨.GA_FLOAT, [2, 3], [12, 4], 0, true, 1⟩
        ⟨.GA_FLOAT, [2], [4], 0, true, 2⟩ ⟨.GA_FLOAT, [3], [4], 0, true, 3⟩ ∧
      (GpuArray_rgemv .cb_trans ⟨.GA_FLOAT, [2, 3], [12, 4], 0, true, 1⟩
        ⟨.GA_FLOAT, [2], [4], 0, true, 2⟩
        ⟨.GA_FLOAT, [3], [4], 0, true, 3⟩ false bkOK).kernels ≠ []) ∧
    (batchPre ⟨.GA_FLOAT, [2, 3, 4], [48, 16, 4], 0, true, 1⟩
        ⟨.GA_FLOAT, [3, 4, 5], [80, 20, 4], 0, true, 2⟩
        ⟨.GA_FLOAT, [2, 3, 5], [60, 20, 4], 0, true, 3⟩ ∧
      ¬ batchDimsOK ⟨.GA_FLOAT, [2, 3, 4], [48, 16, 4], 0, true, 1⟩
        ⟨.GA_FLOAT, [3, 4, 5], [80, 20, 4], 0, true, 2⟩
        ⟨.GA_FLOAT, [2, 3, 5], [60, 20, 4], 0, true, 3⟩ ∧
      GpuArray_rgemmBatch_3d .cb_no_trans .cb_no_trans
        ⟨.GA_FLOAT, [2, 3, 4], [48, 16, 4], 0, true, 1⟩
        ⟨.GA_FLOAT, [3, 4, 5], [80, 20, 4], 0, true, 2⟩
        ⟨.GA_FLOAT, [2, 3, 5], [60, 20, 4], 0, true, 3⟩ false bkOK =
        { status := .GA_VALUE_ERROR,
          errs := [(.GA_VALUE_ERROR, "Mismatched first dimension")],
          kernels := [], copies := [], clears := [] }) := by
  constructor
  · refine ⟨by decide, by decide, ?_⟩
    exact shape_checks_use_effective_dims.2.1 .cb_trans _ _ _ false bkOK
      (by decide) (by decide) (by decide) (by decide) (by decide) (by decide)
  · refine ⟨by decide, by decide, ?_⟩
    exact shape_checks_use_effective_dims.2.2.2.2.1 .cb_no_trans .cb_no_trans _ _ _
      false bkOK (by decide) (by decide)

/-- C6: with the nocopy flag set, an input operand that fails its
required layout (non-one-segment matrix for gemv/gemm, trailing-2-D
noncontiguous operand for batched gemm, negative-stride vector for
dot/gemv/ger) makes the call return `GA_COPY_ERROR` with no backend
kernel invoked and no temporary copy materialized, so the output buffer
is untouched (only backend kernels write to operands in this layer). -/
theorem nocopy_layout_failure_returns_copy_required :
    (∀ (X Y Z : GpuArray) (bk : Backend), dotPre X Y Z →
      (X.str 0 < 0 ∨ Y.str 0 < 0) →
      (GpuArray_rdot X Y Z true bk).status = .GA_COPY_ERROR ∧
      (GpuArray_rdot X Y Z true bk).kernels = [] ∧
      (GpuArray_rdot X Y Z true bk).copies = []) ∧
    (∀ (transA : cb_transpose) (A X Y : GpuArray) (bk : Backend),
      gemvPre A X Y → gemvShapeOK transA A X Y →
      (GpuArray_ISONESEGMENT A = false ∨ X.str 0 < 0) →
      (GpuArray_rgemv transA A X Y true bk).status = .GA_COPY_ERROR ∧
      (GpuArray_rgemv transA A X Y true bk).kernels = [] ∧
      (GpuArray_rgemv transA A X Y true bk).copies = []) ∧
    (∀ (transA transB : cb_transpose) (A B C : GpuArray) (bk : Backend),
      gemmPre A B C → gemmShapeOK transA transB A B C →
      (GpuArray_ISONESEGMENT A = false ∨ GpuArray_ISONESEGMENT B = false) →
      (GpuArray_rgemm transA transB A B C true bk).status = .GA_COPY_ERROR ∧
      (GpuArray_rgemm transA transB A B C true bk).kernels = [] ∧
      (GpuArray_rgemm transA transB A B C true bk).copies = []) ∧
    (∀ (X Y A : GpuArray) (bk : Backend), gerPre X Y A → gerShapeOK X Y A →
      (X.str 0 < 0 ∨ Y.str 0 < 0) →
      (GpuArray_rger X Y A true bk).status = .GA_COPY_ERROR ∧
      (GpuArray_rger X Y A true bk).kernels = [] ∧
      (GpuArray_rger X Y A true bk).copies = []) ∧
    (∀ (transA transB : cb_transpose) (A B C : GpuArray) (bk : Backend),
      batchPre A B C → batchDimsOK A B C → batchTrailingShapeOK transA transB A B C →
      (is_last_2d_contiguous A = 0 ∨ is_last_2d_contiguous B = 0) →
      (GpuArray_rgemmBatch_3d transA transB A B C true bk).status = .GA_COPY_ERROR ∧
      (GpuArray_rgemmBatch_3d transA transB A B C true bk).kernels = [] ∧
      (GpuArray_rgemmBatch_3d transA transB A B C true bk).copies = []) := by
  refine ⟨?_, ?_, ?_, ?_, ?_⟩
  · rintro X Y Z bk ⟨hT, hXnd, hYnd, hZnd, hYt, hZt, hXal, hYal, hZal, hsh⟩ hbad
    by_cases hX : X.str 0 < 0 <;>
      rcases hT with h | h | h <;>
      simp_all [GpuArray_rdot, errRet] <;>
      (try (split_ifs <;> simp_all))
  · rintro transA A X Y bk ⟨hT, hAnd, hXnd, hYnd, hXt, hYt, hAal, hXal, hYal⟩
      ⟨hs1, hs2⟩ hbad
    by_cases hA : GpuArray_ISONESEGMENT A = true <;>
      rcases hT with h | h | h <;>
      simp_all [GpuArray_rgemv, errRet] <;>
      (try (split_ifs <;> simp_all))
  · rintro transA transB A B C bk ⟨hT, hAnd, hBnd, hCnd, hBt, hCt, hAal, hBal, hCal⟩
      ⟨hs1, hs2, hs3⟩ hbad
    by_cases htB : transB = .cb_no_trans <;>
      by_cases hA : GpuArray_ISONESEGMENT A = true <;>
      rcases hT with h | h | h <;>
      simp_all [GpuArray_rgemm, errRet] <;>
      (try (split_ifs <;> simp_all))
  · rintro X Y A bk ⟨hT, hXnd, hYnd, hAnd, hYt, hAt, hXal, hYal, hAal⟩ ⟨hs1, hs2⟩ hbad
    by_cases hX : X.str 0 < 0 <;>
      rcases hT with h | h | h <;>
      simp_all [GpuArray_rger, errRet] <;>
      (try (split_ifs <;> simp_all))
  · rintro transA transB A B C bk ⟨hT, hAnd, hBnd, hCnd, hBt, hCt, hAal, hBal, hCal⟩
      ⟨hd1, hd2⟩ ⟨hs1, hs2, hs3⟩ hbad
    by_cases htB : transB = .cb_no_trans <;>
      by_cases hA : is_last_2d_contiguous A = 0 <;>
      rcases hT with h | h | h <;>
      simp_all [GpuArray_rgemmBatch_3d, errRet] <;>
      (try (split_ifs <;> simp_all))

/-- C6 instantiated: nocopy dot with a negative-stride X, and nocopy
gemm with a non-one-segment A, both return `GA_COPY_ERROR` with no
kernel call and no copy. -/
theorem nocopy_layout_failure_returns_copy_required_witness :
    (dotPre ⟨.GA_FLOAT, [3], [-4], 0, true, 1⟩ ⟨.GA_FLOAT, [3], [4], 0, true, 2⟩
        ⟨.GA_FLOAT, [], [], 0, true, 3⟩ ∧
      (GpuArray_rdot ⟨.GA_FLOAT, [3], [-4], 0, true, 1⟩ ⟨.GA_FLOAT, [3], [4], 0, true, 2⟩
        ⟨.GA_FLOAT, [], [], 0, true, 3⟩ true bkOK).status = .GA_COPY_ERROR ∧
      (GpuArray_rdot ⟨.GA_FLOAT, [3], [-4], 0, true, 1⟩ ⟨.GA_FLOAT, [3], [4], 0, true, 2⟩
        ⟨.GA_FLOAT, [], [], 0, true, 3⟩ true bkOK).kernels = [] ∧
      (GpuArray_rdot ⟨.GA_FLOAT, [3], [-4], 0, true, 1⟩ ⟨.GA_FLOAT, [3], [4], 0, true, 2⟩
        ⟨.GA_FLOAT, [], [], 0, true, 3⟩ true bkOK).copies = []) ∧
    (GpuArray_ISONESEGMENT ⟨.GA_FLOAT, [2, 2], [4, 16], 0, true, 1⟩ = false ∧
      (GpuArray_rgemm .cb_no_trans .cb_no_trans ⟨.GA_FLOAT, [2, 2], [4, 16], 0, true, 1⟩
        ⟨.GA_FLOAT, [2, 2], [4, 8], 0, true, 2⟩ ⟨.GA_FLOAT, [2, 2], [4, 8], 0, true, 3⟩
        true bkOK).status = .GA_COPY_ERROR ∧
      (GpuArray_rgemm .cb_no_trans .cb_no_trans ⟨.GA_FLOAT, [2, 2], [4, 16], 0, true, 1⟩
        ⟨.GA_FLOAT, [2, 2], [4, 8], 0, true, 2⟩ ⟨.GA_FLOAT, [2, 2], [4, 8], 0, true, 3⟩
        true bkOK).kernels = [] ∧
      (GpuArray_rgemm .cb_no_trans .cb_no_trans ⟨.GA_FLOAT, [2, 2], [4, 16], 0, true, 1⟩
        ⟨.GA_FLOAT, [2, 2], [4, 8], 0, true, 2⟩ ⟨.GA_FLOAT, [2, 2], [4, 8], 0, true, 3⟩
        true bkOK).copies = []) := by
  constructor
  · refine ⟨by decide, ?_⟩
    exact nocopy_layout_failure_returns_copy_required.1 _ _ _ bkOK (by decide)
      (Or.inl (by decide))
  · refine ⟨by decide, ?_⟩
    exact nocopy_layout_failure_returns_copy_required.2.2.1 .cb_no_trans .cb_no_trans
      _ _ _ bkOK (by decide) (by decide) (Or.inl (by decide))

/-- The dot kernel stage keeps the cleanup discipline for any
duplicate-free list of temporaries it is handed. -/
theorem rdotKernel_balanced (Xp Yp Z : GpuArray) (n elsizeN : Nat)
    (pre : List (Status × String)) (copies : List String) (bk : Backend)
    (h : copies.Nodup) :
    balancedCleanup (rdotKernel Xp Yp Z n elsizeN pre copies bk) := by
  simp only [rdotKernel]
  split_ifs <;> exact ⟨rfl, h⟩

/-- The gemv dispatch stage keeps the cleanup discipline. -/
theorem rgemvDispatch_balanced (transA : cb_transpose) (Ap Xp Y : GpuArray)
    (m n elsizeN : Nat) (copies : List String) (bk : Backend)
    (h : copies.Nodup) :
    balancedCleanup (rgemvDispatch transA Ap Xp Y m n elsizeN copies bk) := by
  simp only [rgemvDispatch]
  split_ifs <;> exact ⟨rfl, h⟩

/-- The gemm dispatch stage keeps the cleanup discipline. -/
theorem rgemmDispatch_balanced (transA transB : cb_transpose) (Ap Bp C : GpuArray)
    (m n k elsizeN : Nat) (copies : List String) (bk : Backend)
    (h : copies.Nodup) :
    balancedCleanup (rgemmDispatch transA transB Ap Bp C m n k elsizeN copies bk) := by
  simp only [rgemmDispatch]
  split_ifs <;> exact ⟨rfl, h⟩

/-- The ger dispatch stage keeps the cleanup discipline. -/
theorem rgerDispatch_balanced (Xp Yp A : GpuArray) (m n elsizeN : Nat)
    (copies : List String) (bk : Backend) (h : copies.Nodup) :
    balancedCleanup (rgerDispatch Xp Yp A m n elsizeN copies bk) := by
  simp only [rgerDispatch]
  split_ifs <;> exact ⟨rfl, h⟩

/-- The batched kernel stage keeps the cleanup discipline. -/
theorem rgemmBatchKernel_balanced (o : cb_order) (tA2 tB2 : cb_transpose)
    (Ap Bp C : GpuArray) (m n k lda ldb ldc elsizeN batchCount : Nat)
    (copies : List String) (bk : Backend) (h : copies.Nodup) :
    balancedCleanup (rgemmBatchKernel o tA2 tB2 Ap Bp C m n k lda ldb ldc
      elsizeN batchCount copies bk) := by
  simp only [rgemmBatchKernel]
  split_ifs <;> exact ⟨rfl, h⟩

set_option maxHeartbeats 1600000 in
/-- The batched dispatch stage keeps the cleanup discipline. -/
theorem rgemmBatchDispatch_balanced (transA transB : cb_transpose)
    (Ap Bp C : GpuArray) (cA cB m n k elsizeN batchCount : Nat)
    (copies : List String) (bk : Backend) (h : copies.Nodup) :
    balancedCleanup (rgemmBatchDispatch transA transB Ap Bp C cA cB m n k
      elsizeN batchCount copies bk) := by
  simp only [rgemmBatchDispatch]
  split_ifs <;>
    first
      | exact rgemmBatchKernel_balanced _ _ _ _ _ _ _ _ _ _ _ _ _ _ _ _ h
      | exact ⟨rfl, h⟩

set_option maxHeartbeats 3200000 in
/-- C9: on every exit path of every entry point (validation failure,
nocopy refusal, copy failure, output rejection, backend or fallback
failure, success) the temporaries released are exactly the temporaries
materialized during the call, each exactly once, and no release happens
for an operand that was used directly. -/
theorem temporaries_released_exactly_once :
    (∀ (X Y Z : GpuArray) (nocopy : Bool) (bk : Backend),
      balancedCleanup (GpuArray_rdot X Y Z nocopy bk)) ∧
    (∀ (transA : cb_transpose) (A X Y : GpuArray) (nocopy : Bool) (bk : Backend),
      balancedCleanup (GpuArray_rgemv transA A X Y nocopy bk)) ∧
    (∀ (transA transB : cb_transpose) (A B C : GpuArray) (nocopy : Bool) (bk : Backend),
      balancedCleanup (GpuArray_rgemm transA transB A B C nocopy bk)) ∧
    (∀ (X Y A : GpuArray) (nocopy : Bool) (bk : Backend),
      balancedCleanup (GpuArray_rger X Y A nocopy bk)) ∧
    (∀ (transA transB : cb_transpose) (A B C : GpuArray) (nocopy : Bool) (bk : Backend),
      balancedCleanup (GpuArray_rgemmBatch_3d transA transB A B C nocopy bk)) := by
  refine ⟨?_, ?_, ?_, ?_, ?_⟩
  · intro X Y Z nocopy bk
    unfold GpuArray_rdot
    split_ifs <;>
      first
        | exact rdotKernel_balanced _ _ _ _ _ _ _ _ (by simp)
        | exact ⟨rfl, by simp [errRet]⟩
        | (exfalso; tauto)
  · intro transA A X Y nocopy bk
    unfold GpuArray_rgemv
    split_ifs <;>
      first
        | exact rgemvDispatch_balanced _ _ _ _ _ _ _ _ _ (by simp)
        | exact ⟨rfl, by simp [errRet]⟩
        | (exfalso; tauto)
  · intro transA transB A B C nocopy bk
    unfold GpuArray_rgemm
    by_cases h1 : A.typecode ≠ .GA_HALF ∧ A.typecode ≠ .GA_FLOAT ∧
      A.typecode ≠ .GA_DOUBLE
    · rw [if_pos h1]; exact ⟨rfl, by simp [errRet]⟩
    rw [if_neg h1]
    by_cases h2 : A.nd ≠ 2 ∨ B.nd ≠ 2 ∨ C.nd ≠ 2
    · rw [if_pos h2]; exact ⟨rfl, by simp [errRet]⟩
    rw [if_neg h2]
    by_cases h3 : B.typecode ≠ A.typecode ∨ C.typecode ≠ A.typecode
    · rw [if_pos h3]; exact ⟨rfl, by simp [errRet]⟩
    rw [if_neg h3]
    by_cases h4 : ¬A.aligned = true ∨ ¬B.aligned = true ∨ ¬C.aligned = true
    · rw [if_pos h4]; exact ⟨rfl, by simp [errRet]⟩
    rw [if_neg h4]
    by_cases h5 : (if transB = .cb_no_trans
        then B.dim 0 ≠ (if transA = .cb_no_trans then A.dim 1 else A.dim 0)
        else B.dim 1 ≠ (if transA = .cb_no_trans then A.dim 1 else A.dim 0))
    · rw [if_pos h5]; exact ⟨rfl, by simp [errRet]⟩
    rw [if_neg h5]
    by_cases h6 : C.dim 0 ≠ (if transA = .cb_no_trans then A.dim 0 else A.dim 1) ∨
      C.dim 1 ≠ (if transB = .cb_no_trans then B.dim 1 else B.dim 0)
    · rw [if_pos h6]; exact ⟨rfl, by simp [errRet]⟩
    rw [if_neg h6]
    by_cases h7 : ¬GpuArray_ISONESEGMENT A = true ∧ nocopy = true
    · rw [if_pos h7]; exact ⟨rfl, by simp [errRet]⟩
    rw [if_neg h7]
    by_cases h8 : ¬GpuArray_ISONESEGMENT A = true ∧ bk.copyRes 0 ≠ .GA_NO_ERROR
    · rw [if_pos h8]; exact ⟨rfl, by simp⟩
    rw [if_neg h8]
    by_cases h9 : ¬GpuArray_ISONESEGMENT B = true ∧ nocopy = true
    · rw [if_pos h9]
      have hsegA : GpuArray_ISONESEGMENT A = true := by
        rcases h9 with ⟨h9a, h9b⟩
        by_contra hx
        exact h7 ⟨hx, h9b⟩
      exact ⟨by simp [hsegA], by simp [hsegA]⟩
    rw [if_neg h9]
    by_cases h10 : ¬GpuArray_ISONESEGMENT B = true ∧ bk.copyRes 1 ≠ .GA_NO_ERROR
    · rw [if_pos h10]
      exact ⟨rfl, by by_cases hA : GpuArray_ISONESEGMENT A = true <;> simp [hA]⟩
    rw [if_neg h10]
    exact rgemmDispatch_balanced _ _ _ _ _ _ _ _ _ _ _ (by
      by_cases hA : GpuArray_ISONESEGMENT A = true <;>
        by_cases hB : GpuArray_ISONESEGMENT B = true <;>
        simp [hA, hB])
  · intro X Y A nocopy bk
    unfold GpuArray_rger
    split_ifs <;>
      first
        | exact rgerDispatch_balanced _ _ _ _ _ _ _ _ (by simp)
        | exact ⟨rfl, by simp [errRet]⟩
        | (exfalso; tauto)
  · intro transA transB A B C nocopy bk
    unfold GpuArray_rgemmBatch_3d
    by_cases h1 : A.typecode ≠ .GA_FLOAT ∧ A.typecode ≠ .GA_DOUBLE ∧
      A.typecode ≠ .GA_HALF
    · rw [if_pos h1]; exact ⟨rfl, by simp [errRet]⟩
    rw [if_neg h1]
    by_cases h2 : A.nd ≠ 3 ∨ B.nd ≠ 3 ∨ C.nd ≠ 3
    · rw [if_pos h2]; exact ⟨rfl, by simp [errRet]⟩
    rw [if_neg h2]
    by_cases h3 : B.typecode ≠ A.typecode ∨ C.typecode ≠ A.typecode
    · rw [if_pos h3]; exact ⟨rfl, by simp [errRet]⟩
    rw [if_neg h3]
    by_cases h4 : ¬A.aligned = true ∨ ¬B.aligned = true ∨ ¬C.aligned = true
    · rw [if_pos h4]; exact ⟨rfl, by simp [errRet]⟩
    rw [if_neg h4]
    by_cases h5 : B.dim 0 ≠ A.dim 0 ∨ C.dim 0 ≠ A.dim 0
    · rw [if_pos h5]; exact ⟨rfl, by simp [errRet]⟩
    rw [if_neg h5]
    by_cases h6 : (if transB = .cb_no_trans
        then B.dim 1 ≠ (if transA = .cb_no_trans then A.dim 2 else A.dim 1)
        else B.dim 2 ≠ (if transA = .cb_no_trans then A.dim 2 else A.dim 1))
    · rw [if_pos h6]; exact ⟨rfl, by simp [errRet]⟩
    rw [if_neg h6]
    by_cases h7 : C.dim 1 ≠ (if transA = .cb_no_trans then A.dim 1 else A.dim 2) ∨
      C.dim 2 ≠ (if transB = .cb_no_trans then B.dim 2 else B.dim 1)
    · rw [if_pos h7]; exact ⟨rfl, by simp [errRet]⟩
    rw [if_neg h7]
    by_cases h8 : is_last_2d_contiguous A = 0 ∧ nocopy = true
    · rw [if_pos h8]; exact ⟨rfl, by simp [errRet]⟩
    rw [if_neg h8]
    by_cases h9 : is_last_2d_contiguous A = 0 ∧ bk.copyRes 0 ≠ .GA_NO_ERROR
    · rw [if_pos h9]; exact ⟨rfl, by simp⟩
    rw [if_neg h9]
    by_cases h10 : is_last_2d_contiguous B = 0 ∧ nocopy = true
    · rw [if_pos h10]
      have hsegA : ¬ is_last_2d_contiguous A = 0 := fun hx => h8 ⟨hx, h10.2⟩
      exact ⟨by simp [hsegA], by simp [hsegA]⟩
    rw [if_neg h10]
    by_cases h11 : is_last_2d_contiguous B = 0 ∧ bk.copyRes 1 ≠ .GA_NO_ERROR
    · rw [if_pos h11]
      exact ⟨rfl, by by_cases hA : is_last_2d_contiguous A = 0 <;> simp [hA]⟩
    rw [if_neg h11]
    exact rgemmBatchDispatch_balanced _ _ _ _ _ _ _ _ _ _ _ _ _ _ (by
      by_cases hA : is_last_2d_contiguous A = 0 <;>
        by_cases hB : is_last_2d_contiguous B = 0 <;>
        simp [hA, hB])

set_option maxHeartbeats 1600000 in
/-- C1: once the output operand C fixes the canonical order O
(cb_fortran when C classifies column-major, cb_c when row-major; the
classifier takes the F test first), the transpose flag handed to the
backend for each input operand equals the caller-supplied flag toggled
exactly when that operand's own classified storage order disagrees with
O, and is unchanged when the orders agree — for gemm and for every
kernel of the batched path.  The operands are taken one-segment here,
so the flags describe the operands dispatched (after a bounce copy the
same rule applies to the copy's order). -/
theorem transpose_flip_iff_order_disagrees :
    (∀ (transA transB : cb_transpose) (A B C : GpuArray) (nocopy : Bool) (bk : Backend),
      gemmPre A B C → gemmShapeOK transA transB A B C →
      GpuArray_ISONESEGMENT A = true → GpuArray_ISONESEGMENT B = true →
      GpuArray_ISONESEGMENT C = true → bk.setup = .GA_NO_ERROR →
      (GpuArray_rgemm transA transB A B C nocopy bk).kernels.map KernelCall.korder =
        [some (classifyOrder C)] ∧
      (GpuArray_rgemm transA transB A B C nocopy bk).kernels.map KernelCall.ktransA =
        [some (if classifyOrder A = classifyOrder C then transA else flipTrans transA)] ∧
      (GpuArray_rgemm transA transB A B C nocopy bk).kernels.map KernelCall.ktransB =
        [some (if classifyOrder B = classifyOrder C then transB else flipTrans transB)]) ∧
    (∀ (transA transB : cb_transpose) (A B C : GpuArray) (nocopy : Bool) (bk : Backend),
      batchPre A B C → batchDimsOK A B C → batchTrailingShapeOK transA transB A B C →
      is_last_2d_contiguous A ≠ 0 → is_last_2d_contiguous B ≠ 0 →
      is_last_2d_contiguous C ≠ 0 → bk.setup = .GA_NO_ERROR →
      (GpuArray_rgemmBatch_3d transA transB A B C nocopy bk).kernels ≠ [] ∧
      ∀ kc ∈ (GpuArray_rgemmBatch_3d transA transB A B C nocopy bk).kernels,
        kc.korder = some (classifyOrderBatch C) ∧
        kc.ktransA = some (if classifyOrderBatch A = classifyOrderBatch C
          then transA else flipTrans transA) ∧
        kc.ktransB = some (if classifyOrderBatch B = classifyOrderBatch C
          then transB else flipTrans transB)) := by
  constructor
  · rintro transA transB A B C nocopy bk ⟨hT, hAnd, hBnd, hCnd, hBt, hCt, hAal, hBal, hCal⟩
      ⟨hs1, hs2, hs3⟩ hsegA hsegB hsegC hsu
    rcases fContigOr A hsegA with hAf | ⟨hAf, hAc⟩ <;>
      rcases fContigOr B hsegB with hBf | ⟨hBf, hBc⟩ <;>
      rcases fContigOr C hsegC with hCf | ⟨hCf, hCc⟩ <;>
      by_cases htB : transB = .cb_no_trans <;>
      rcases hT with h | h | h <;>
      simp_all [GpuArray_rgemm, rgemmDispatch, classifyOrder, KernelCall.korder,
        KernelCall.ktransA, KernelCall.ktransB]
  · rintro transA transB A B C nocopy bk ⟨hT, hAnd, hBnd, hCnd, hBt, hCt, hAal, hBal, hCal⟩
      ⟨hd1, hd2⟩ ⟨hs1, hs2, hs3⟩ hcA hcB hcC hsu
    rcases is_last_2d_contiguous_cases A with hA | hA | hA <;>
      rcases is_last_2d_contiguous_cases B with hB | hB | hB <;>
      rcases is_last_2d_contiguous_cases C with hC | hC | hC <;>
      (try exact absurd hA hcA) <;> (try exact absurd hB hcB) <;>
      (try exact absurd hC hcC) <;>
      by_cases htB : transB = .cb_no_trans <;>
      rcases hT with h | h | h <;>
      (simp [htB] at hs1 hs3
       simp [GpuArray_rgemmBatch_3d, rgemmBatchDispatch,
         classifyOrderBatch, h, hAnd, hBnd, hCnd, hBt, hCt, hAal, hBal, hCal,
         hd1, hd2, hs1, hs2, hs3, hA, hB, hC, htB]
       try exact rgemmBatchKernel_resolved _ _ _ _ _ _ _ _ _ _ _ _ _ _ _ _ hsu)

/-- C1 instantiated: an all-row-major gemm flips both input flags
(their column-classified... here row-classified orders agree with O, so
flags pass through), while an F-ordered A against a C-ordered output C
is flipped; checked on a concrete batched call as well. -/
theorem transpose_flip_iff_order_disagrees_witness :
    (gemmPre ⟨.GA_FLOAT, [2, 2], [4, 8], 0, true, 1⟩ ⟨.GA_FLOAT, [2, 2], [8, 4], 0, true, 2⟩
        ⟨.GA_FLOAT, [2, 2], [8, 4], 0, true, 3⟩ ∧
      (GpuArray_rgemm .cb_no_trans .cb_no_trans ⟨.GA_FLOAT, [2, 2], [4, 8], 0, true, 1⟩
          ⟨.GA_FLOAT, [2, 2], [8, 4], 0, true, 2⟩ ⟨.GA_FLOAT, [2, 2], [8, 4], 0, true, 3⟩
          false bkOK).kernels.map KernelCall.ktransA =
        [some (flipTrans .cb_no_trans)] ∧
      (GpuArray_rgemm .cb_no_trans .cb_no_trans ⟨.GA_FLOAT, [2, 2], [4, 8], 0, true, 1⟩
          ⟨.GA_FLOAT, [2, 2], [8, 4], 0, true, 2⟩ ⟨.GA_FLOAT, [2, 2], [8, 4], 0, true, 3⟩
          false bkOK).kernels.map KernelCall.ktransB =
        [some .cb_no_trans]) ∧
    (batchPre ⟨.GA_FLOAT, [2, 3, 4], [48, 16, 4], 0, true, 1⟩
        ⟨.GA_FLOAT, [2, 4, 5], [80, 20, 4], 0, true, 2⟩
        ⟨.GA_FLOAT, [2, 3, 5], [60, 20, 4], 0, true, 3⟩ ∧
      ∀ kc ∈ (GpuArray_rgemmBatch_3d .cb_no_trans .cb_no_trans
          ⟨.GA_FLOAT, [2, 3, 4], [48, 16, 4], 0, true, 1⟩
          ⟨.GA_FLOAT, [2, 4, 5], [80, 20, 4], 0, true, 2⟩
          ⟨.GA_FLOAT, [2, 3, 5], [60, 20, 4], 0, true, 3⟩ false bkOK).kernels,
        kc.korder = some .cb_c ∧ kc.ktransA = some .cb_no_trans) := by
  constructor
  · refine ⟨by decide, ?_, ?_⟩
    · have h := (transpose_flip_iff_order_disagrees.1 .cb_no_trans .cb_no_trans
        ⟨.GA_FLOAT, [2, 2], [4, 8], 0, true, 1⟩ ⟨.GA_FLOAT, [2, 2], [8, 4], 0, true, 2⟩
        ⟨.GA_FLOAT, [2, 2], [8, 4], 0, true, 3⟩ false bkOK
        (by decide) (by decide) (by decide) (by decide) (by decide) (by decide)).2.1
      rw [h]; decide
    · have h := (transpose_flip_iff_order_disagrees.1 .cb_no_trans .cb_no_trans
        ⟨.GA_FLOAT, [2, 2], [4, 8], 0, true, 1⟩ ⟨.GA_FLOAT, [2, 2], [8, 4], 0, true, 2⟩
        ⟨.GA_FLOAT, [2, 2], [8, 4], 0, true, 3⟩ false bkOK
        (by decide) (by decide) (by decide) (by decide) (by decide) (by decide)).2.2
      rw [h]; decide
  · refine ⟨by decide, ?_⟩
    intro kc hkc
    have h := (transpose_flip_iff_order_disagrees.2 .cb_no_trans .cb_no_trans
      ⟨.GA_FLOAT, [2, 3, 4], [48, 16, 4], 0, true, 1⟩
      ⟨.GA_FLOAT, [2, 4, 5], [80, 20, 4], 0, true, 2⟩
      ⟨.GA_FLOAT, [2, 3, 5], [60, 20, 4], 0, true, 3⟩ false bkOK
      (by decide) (by decide) (by decide) (by decide) (by decide) (by decide)
      (by decide)).2 kc hkc
    refine ⟨?_, ?_⟩
    · rw [h.1]; decide
    · rw [h.2.1]; decide

set_option maxHeartbeats 1600000 in
/-- C10: an order-determining operand that is simultaneously C- and
F-contiguous resolves as column-major, because the F-contiguous test is
taken first: gemv's A, gemm's C and ger's A then give kernel order
cb_fortran with the leading dimension taken from the first dimension,
and a both-contiguous non-anchor A in gemm takes the F branch — lda
from the first dimension and the transpose flag flipped exactly when
the anchor order is cb_c. -/
theorem both_contiguous_resolved_column_major :
    (∀ (transA : cb_transpose) (A X Y : GpuArray) (nocopy : Bool) (bk : Backend),
      gemvPre A X Y → gemvShapeOK transA A X Y →
      A.f_contig = true → A.c_contig = true → 0 ≤ X.str 0 → 0 ≤ Y.str 0 →
      bk.setup = .GA_NO_ERROR →
      (GpuArray_rgemv transA A X Y nocopy bk).kernels.map KernelCall.korder =
        [some .cb_fortran] ∧
      (GpuArray_rgemv transA A X Y nocopy bk).kernels.map KernelCall.klda =
        [some (A.dim 0)]) ∧
    (∀ (transA transB : cb_transpose) (A B C : GpuArray) (nocopy : Bool) (bk : Backend),
      gemmPre A B C → gemmShapeOK transA transB A B C →
      GpuArray_ISONESEGMENT A = true → GpuArray_ISONESEGMENT B = true →
      C.f_contig = true → C.c_contig = true → bk.setup = .GA_NO_ERROR →
      (GpuArray_rgemm transA transB A B C nocopy bk).kernels.map KernelCall.korder =
        [some .cb_fortran] ∧
      (GpuArray_rgemm transA transB A B C nocopy bk).kernels.map KernelCall.kldc =
        [some (C.dim 0)]) ∧
    (∀ (transA transB : cb_transpose) (A B C : GpuArray) (nocopy : Bool) (bk : Backend),
      gemmPre A B C → gemmShapeOK transA transB A B C →
      A.f_contig = true → A.c_contig = true →
      GpuArray_ISONESEGMENT B = true → GpuArray_ISONESEGMENT C = true →
      bk.setup = .GA_NO_ERROR →
      (GpuArray_rgemm transA transB A B C nocopy bk).kernels.map KernelCall.klda =
        [some (A.dim 0)] ∧
      (GpuArray_rgemm transA transB A B C nocopy bk).kernels.map KernelCall.ktransA =
        [some (if classifyOrder C = .cb_c then flipTrans transA else transA)]) ∧
    (∀ (X Y A : GpuArray) (nocopy : Bool) (bk : Backend),
      gerPre X Y A → gerShapeOK X Y A →
      A.f_contig = true → A.c_contig = true → 0 ≤ X.str 0 → 0 ≤ Y.str 0 →
      bk.setup = .GA_NO_ERROR →
      (GpuArray_rger X Y A nocopy bk).kernels.map KernelCall.korder =
        [some .cb_fortran] ∧
      (GpuArray_rger X Y A nocopy bk).kernels.map KernelCall.klda =
        [some (A.dim 0)]) := by
  refine ⟨?_, ?_, ?_, ?_⟩
  · rintro transA A X Y nocopy bk ⟨hT, hAnd, hXnd, hYnd, hXt, hYt, hAal, hXal, hYal⟩
      ⟨hs1, hs2⟩ hAf hAc hX hY hsu
    have hseg : GpuArray_ISONESEGMENT A = true := by
      simp [GpuArray_ISONESEGMENT, hAf]
    rcases hT with h | h | h <;>
      simp_all [GpuArray_rgemv, rgemvDispatch, not_lt.mpr hX, not_lt.mpr hY,
        KernelCall.korder, KernelCall.klda]
  · rintro transA transB A B C nocopy bk ⟨hT, hAnd, hBnd, hCnd, hBt, hCt, hAal, hBal, hCal⟩
      ⟨hs1, hs2, hs3⟩ hsegA hsegB hCf hCc hsu
    have hsegC : GpuArray_ISONESEGMENT C = true := by
      simp [GpuArray_ISONESEGMENT, hCf]
    rcases fContigOr A hsegA with hAf | ⟨hAf, hAc⟩ <;>
      rcases fContigOr B hsegB with hBf | ⟨hBf, hBc⟩ <;>
      by_cases htB : transB = .cb_no_trans <;>
      rcases hT with h | h | h <;>
      simp_all [GpuArray_rgemm, rgemmDispatch, KernelCall.korder, KernelCall.kldc]
  · rintro transA transB A B C nocopy bk ⟨hT, hAnd, hBnd, hCnd, hBt, hCt, hAal, hBal, hCal⟩
      ⟨hs1, hs2, hs3⟩ hAf hAc hsegB hsegC hsu
    have hsegA : GpuArray_ISONESEGMENT A = true := by
      simp [GpuArray_ISONESEGMENT, hAf]
    rcases fContigOr B hsegB with hBf | ⟨hBf, hBc⟩ <;>
      rcases fContigOr C hsegC with hCf | ⟨hCf, hCc⟩ <;>
      by_cases htB : transB = .cb_no_trans <;>
      rcases hT with h | h | h <;>
      simp_all [GpuArray_rgemm, rgemmDispatch, classifyOrder, KernelCall.klda,
        KernelCall.ktransA]
  · rintro X Y A nocopy bk ⟨hT, hXnd, hYnd, hAnd, hYt, hAt, hXal, hYal, hAal⟩
      ⟨hs1, hs2⟩ hAf hAc hX hY hsu
    rcases hT with h | h | h <;>
      simp_all [GpuArray_rger, rgerDispatch, GpuArray_ISONESEGMENT, not_lt.mpr hX,
        not_lt.mpr hY, KernelCall.korder, KernelCall.klda]

/-- C10 instantiated: a gemv and a ger on a 3×1 matrix A (both C- and
F-contiguous) resolve to cb_fortran with lda = 3, and a gemm whose 2×2
output C has both flags... here a 1×1 C, resolves to cb_fortran with
ldc taken from the first dimension. -/
theorem both_contiguous_resolved_column_major_witness :
    (gemvPre ⟨.GA_FLOAT, [3, 1], [4, 4], 0, true, 1⟩ ⟨.GA_FLOAT, [1], [4], 0, true, 2⟩
        ⟨.GA_FLOAT, [3], [4], 0, true, 3⟩ ∧
      (GpuArray_rgemv .cb_no_trans ⟨.GA_FLOAT, [3, 1], [4, 4], 0, true, 1⟩
          ⟨.GA_FLOAT, [1], [4], 0, true, 2⟩
          ⟨.GA_FLOAT, [3], [4], 0, true, 3⟩ false bkOK).kernels.map KernelCall.korder =
        [some .cb_fortran] ∧
      (GpuArray_rgemv .cb_no_trans ⟨.GA_FLOAT, [3, 1], [4, 4], 0, true, 1⟩
          ⟨.GA_FLOAT, [1], [4], 0, true, 2⟩
          ⟨.GA_FLOAT, [3], [4], 0, true, 3⟩ false bkOK).kernels.map KernelCall.klda =
        [some 3]) ∧
    ((⟨.GA_FLOAT, [3, 1], [4, 4], 0, true, 7⟩ : GpuArray).f_contig = true ∧
      (⟨.GA_FLOAT, [3, 1], [4, 4], 0, true, 7⟩ : GpuArray).c_contig = true) := by
  refine ⟨⟨by decide, ?_, ?_⟩, by decide, by decide⟩
  · have h := (both_contiguous_resolved_column_major.1 .cb_no_trans
      ⟨.GA_FLOAT, [3, 1], [4, 4], 0, true, 1⟩ ⟨.GA_FLOAT, [1], [4], 0, true, 2⟩
      ⟨.GA_FLOAT, [3], [4], 0, true, 3⟩ false bkOK (by decide) (by decide) (by decide)
      (by decide) (by decide) (by decide) (by decide)).1
    simpa using h
  · have h := (both_contiguous_resolved_column_major.1 .cb_no_trans
      ⟨.GA_FLOAT, [3, 1], [4, 4], 0, true, 1⟩ ⟨.GA_FLOAT, [1], [4], 0, true, 2⟩
      ⟨.GA_FLOAT, [3], [4], 0, true, 3⟩ false bkOK (by decide) (by decide) (by decide)
      (by decide) (by decide) (by decide) (by decide)).2
    simpa using h

set_option maxHeartbeats 1600000 in
/-- C8: the degenerate extent-1 substitution for leading dimensions.
In gemv an F-classified A always takes lda from the first dimension (so
in particular when the adjacent axis has extent 1, lda is the other
axis's extent) and a C-classified A takes lda from the second.  In the
batched path the leading dimension comes from a stride, EXCEPT when the
axis adjacent to the contiguous axis has extent 1, where the other
axis's extent is substituted: an F-classified output C with trailing
n×1 shape yields ldc = C.dim 1, a C-classified C with trailing 1×n
shape yields ldc = C.dim 2, and likewise for operand A and lda. -/
theorem degenerate_leading_dimension_substitution :
    (∀ (transA : cb_transpose) (A X Y : GpuArray) (nocopy : Bool) (bk : Backend),
      gemvPre A X Y → gemvShapeOK transA A X Y →
      A.f_contig = true → A.dim 1 = 1 → 0 ≤ X.str 0 → 0 ≤ Y.str 0 →
      bk.setup = .GA_NO_ERROR →
      (GpuArray_rgemv transA A X Y nocopy bk).kernels.map KernelCall.klda =
        [some (A.dim 0)]) ∧
    (∀ (transA : cb_transpose) (A X Y : GpuArray) (nocopy : Bool) (bk : Backend),
      gemvPre A X Y → gemvShapeOK transA A X Y →
      A.f_contig = false → A.c_contig = true → A.dim 0 = 1 →
      0 ≤ X.str 0 → 0 ≤ Y.str 0 → bk.setup = .GA_NO_ERROR →
      (GpuArray_rgemv transA A X Y nocopy bk).kernels.map KernelCall.klda =
        [some (A.dim 1)]) ∧
    (∀ (transA transB : cb_transpose) (A B C : GpuArray) (nocopy : Bool) (bk : Backend),
      batchPre A B C → batchDimsOK A B C → batchTrailingShapeOK transA transB A B C →
      is_last_2d_contiguous A ≠ 0 → is_last_2d_contiguous B ≠ 0 →
      is_last_2d_contiguous C = 2 → C.dim 2 = 1 → bk.setup = .GA_NO_ERROR →
      (GpuArray_rgemmBatch_3d transA transB A B C nocopy bk).kernels ≠ [] ∧
      ∀ kc ∈ (GpuArray_rgemmBatch_3d transA transB A B C nocopy bk).kernels,
        kc.kldc = some (C.dim 1)) ∧
    (∀ (transA transB : cb_transpose) (A B C : GpuArray) (nocopy : Bool) (bk : Backend),
      batchPre A B C → batchDimsOK A B C → batchTrailingShapeOK transA transB A B C →
      is_last_2d_contiguous A ≠ 0 → is_last_2d_contiguous B ≠ 0 →
      is_last_2d_contiguous C = 1 → C.dim 1 = 1 → bk.setup = .GA_NO_ERROR →
      (GpuArray_rgemmBatch_3d transA transB A B C nocopy bk).kernels ≠ [] ∧
      ∀ kc ∈ (GpuArray_rgemmBatch_3d transA transB A B C nocopy bk).kernels,
        kc.kldc = some (C.dim 2)) ∧
    (∀ (transA transB : cb_transpose) (A B C : GpuArray) (nocopy : Bool) (bk : Backend),
      batchPre A B C → batchDimsOK A B C → batchTrailingShapeOK transA transB A B C →
      is_last_2d_contiguous A = 2 → A.dim 2 = 1 → is_last_2d_contiguous B ≠ 0 →
      is_last_2d_contiguous C ≠ 0 → bk.setup = .GA_NO_ERROR →
      (GpuArray_rgemmBatch_3d transA transB A B C nocopy bk).kernels ≠ [] ∧
      ∀ kc ∈ (GpuArray_rgemmBatch_3d transA transB A B C nocopy bk).kernels,
        kc.klda = some (A.dim 1)) ∧
    (∀ (transA transB : cb_transpose) (A B C : GpuArray) (nocopy : Bool) (bk : Backend),
      batchPre A B C → batchDimsOK A B C → batchTrailingShapeOK transA transB A B C →
      is_last_2d_contiguous A = 1 → A.dim 1 = 1 → is_last_2d_contiguous B ≠ 0 →
      is_last_2d_contiguous C ≠ 0 → bk.setup = .GA_NO_ERROR →
      (GpuArray_rgemmBatch_3d transA transB A B C nocopy bk).kernels ≠ [] ∧
      ∀ kc ∈ (GpuArray_rgemmBatch_3d transA transB A B C nocopy bk).kernels,
        kc.klda = some (A.dim 2)) := by
  refine ⟨?_, ?_, ?_, ?_, ?_, ?_⟩
  · rintro transA A X Y nocopy bk ⟨hT, hAnd, hXnd, hYnd, hXt, hYt, hAal, hXal, hYal⟩
      ⟨hs1, hs2⟩ hAf hAdim hX hY hsu
    have hseg : GpuArray_ISONESEGMENT A = true := by
      simp [GpuArray_ISONESEGMENT, hAf]
    rcases hT with h | h | h <;>
      simp_all [GpuArray_rgemv, rgemvDispatch, not_lt.mpr hX, not_lt.mpr hY,
        KernelCall.klda]
  · rintro transA A X Y nocopy bk ⟨hT, hAnd, hXnd, hYnd, hXt, hYt, hAal, hXal, hYal⟩
      ⟨hs1, hs2⟩ hAf hAc hAdim hX hY hsu
    have hseg : GpuArray_ISONESEGMENT A = true := by
      simp [GpuArray_ISONESEGMENT, hAc]
    rcases hT with h | h | h <;>
      simp_all [GpuArray_rgemv, rgemvDispatch, not_lt.mpr hX, not_lt.mpr hY,
        KernelCall.klda]
  · rintro transA transB A B C nocopy bk ⟨hT, hAnd, hBnd, hCnd, hBt, hCt, hAal, hBal, hCal⟩
      ⟨hd1, hd2⟩ ⟨hs1, hs2, hs3⟩ hcA hcB hC2 hCdim hsu
    rcases is_last_2d_contiguous_cases A with hA | hA | hA <;>
      (try exact absurd hA hcA) <;>
      rcases is_last_2d_contiguous_cases B with hB | hB | hB <;>
      (try exact absurd hB hcB) <;>
      by_cases htB : transB = .cb_no_trans <;>
      rcases hT with h | h | h <;>
      (simp [htB] at hs1 hs3
       have hBdim := hs3.symm.trans hCdim
       simp [GpuArray_rgemmBatch_3d, rgemmBatchDispatch, h, hAnd, hBnd, hCnd, hBt, hCt,
         hAal, hBal, hCal, hd1, hd2, hs1, hs2, hs3, hA, hB, hC2, hCdim, hBdim, htB]
       try exact ⟨(rgemmBatchKernel_lds _ _ _ _ _ _ _ _ _ _ _ _ _ _ _ _ hsu).1,
         fun kc hk => ((rgemmBatchKernel_lds _ _ _ _ _ _ _ _ _ _ _ _ _ _ _ _ hsu).2 kc hk).2⟩)
  · rintro transA transB A B C nocopy bk ⟨hT, hAnd, hBnd, hCnd, hBt, hCt, hAal, hBal, hCal⟩
      ⟨hd1, hd2⟩ ⟨hs1, hs2, hs3⟩ hcA hcB hC1 hCdim hsu
    rcases is_last_2d_contiguous_cases A with hA | hA | hA <;>
      (try exact absurd hA hcA) <;>
      rcases is_last_2d_contiguous_cases B with hB | hB | hB <;>
      (try exact absurd hB hcB) <;>
      by_cases htB : transB = .cb_no_trans <;>
      rcases hT with h | h | h <;>
      (simp [htB] at hs1 hs3
       have hAdim := hs2.symm.trans hCdim
       simp [GpuArray_rgemmBatch_3d, rgemmBatchDispatch, h, hAnd, hBnd, hCnd, hBt, hCt,
         hAal, hBal, hCal, hd1, hd2, hs1, hs2, hs3, hA, hB, hC1, hCdim, hAdim, htB]
       try exact ⟨(rgemmBatchKernel_lds _ _ _ _ _ _ _ _ _ _ _ _ _ _ _ _ hsu).1,
         fun kc hk => ((rgemmBatchKernel_lds _ _ _ _ _ _ _ _ _ _ _ _ _ _ _ _ hsu).2 kc hk).2⟩)
  · rintro transA transB A B C nocopy bk ⟨hT, hAnd, hBnd, hCnd, hBt, hCt, hAal, hBal, hCal⟩
      ⟨hd1, hd2⟩ ⟨hs1, hs2, hs3⟩ hA2 hAdim hcB hcC hsu
    rcases is_last_2d_contiguous_cases B with hB | hB | hB <;>
      (try exact absurd hB hcB) <;>
      rcases is_last_2d_contiguous_cases C with hC | hC | hC <;>
      (try exact absurd hC hcC) <;>
      by_cases htB : transB = .cb_no_trans <;>
      rcases hT with h | h | h <;>
      (simp [htB] at hs1 hs3
       simp [GpuArray_rgemmBatch_3d, rgemmBatchDispatch, h, hAnd, hBnd, hCnd, hBt, hCt,
         hAal, hBal, hCal, hd1, hd2, hs1, hs2, hs3, hA2, hAdim, hB, hC, htB]
       try exact ⟨(rgemmBatchKernel_lds _ _ _ _ _ _ _ _ _ _ _ _ _ _ _ _ hsu).1,
         fun kc hk => ((rgemmBatchKernel_lds _ _ _ _ _ _ _ _ _ _ _ _ _ _ _ _ hsu).2 kc hk).1⟩)
  · rintro transA transB A B C nocopy bk ⟨hT, hAnd, hBnd, hCnd, hBt, hCt, hAal, hBal, hCal⟩
      ⟨hd1, hd2⟩ ⟨hs1, hs2, hs3⟩ hA1 hAdim hcB hcC hsu
    rcases is_last_2d_contiguous_cases B with hB | hB | hB <;>
      (try exact absurd hB hcB) <;>
      rcases is_last_2d_contiguous_cases C with hC | hC | hC <;>
      (try exact absurd hC hcC) <;>
      by_cases htB : transB = .cb_no_trans <;>
      rcases hT with h | h | h <;>
      (simp [htB] at hs1 hs3
       simp [GpuArray_rgemmBatch_3d, rgemmBatchDispatch, h, hAnd, hBnd, hCnd, hBt, hCt,
         hAal, hBal, hCal, hd1, hd2, hs1, hs2, hs3, hA1, hAdim, hB, hC, htB]
       try exact ⟨(rgemmBatchKernel_lds _ _ _ _ _ _ _ _ _ _ _ _ _ _ _ _ hsu).1,
         fun kc hk => ((rgemmBatchKernel_lds _ _ _ _ _ _ _ _ _ _ _ _ _ _ _ _ hsu).2 kc hk).1⟩)

/-- C8 instantiated: a gemv on a 3×1 F-classified A yields lda = 3, and
a batched call whose output C has trailing 3×1 shape, F-classified by
its stride (not packed along the batch axis), yields ldc = 3 on every
kernel dispatched. -/
theorem degenerate_leading_dimension_substitution_witness :
    (gemvPre ⟨.GA_FLOAT, [3, 1], [4, 99], 0, true, 1⟩ ⟨.GA_FLOAT, [1], [4], 0, true, 2⟩
        ⟨.GA_FLOAT, [3], [4], 0, true, 3⟩ ∧
      (GpuArray_rgemv .cb_no_trans ⟨.GA_FLOAT, [3, 1], [4, 99], 0, true, 1⟩
          ⟨.GA_FLOAT, [1], [4], 0, true, 2⟩
          ⟨.GA_FLOAT, [3], [4], 0, true, 3⟩ false bkOK).kernels.map KernelCall.klda =
        [some 3]) ∧
    (is_last_2d_contiguous ⟨.GA_FLOAT, [2, 3, 1], [100, 4, 4], 0, true, 3⟩ = 2 ∧
      ∀ kc ∈ (GpuArray_rgemmBatch_3d .cb_no_trans .cb_no_trans
          ⟨.GA_FLOAT, [2, 3, 4], [48, 16, 4], 0, true, 1⟩
          ⟨.GA_FLOAT, [2, 4, 1], [16, 4, 4], 0, true, 2⟩
          ⟨.GA_FLOAT, [2, 3, 1], [100, 4, 4], 0, true, 3⟩ false bkOK).kernels,
        kc.kldc = some 3) := by
  constructor
  · refine ⟨by decide, ?_⟩
    have h := degenerate_leading_dimension_substitution.1 .cb_no_trans
      ⟨.GA_FLOAT, [3, 1], [4, 99], 0, true, 1⟩ ⟨.GA_FLOAT, [1], [4], 0, true, 2⟩
      ⟨.GA_FLOAT, [3], [4], 0, true, 3⟩ false bkOK (by decide) (by decide) (by decide)
      (by decide) (by decide) (by decide) (by decide)
    simpa using h
  · refine ⟨by decide, ?_⟩
    intro kc hkc
    have h := (degenerate_leading_dimension_substitution.2.2.1 .cb_no_trans .cb_no_trans
      ⟨.GA_FLOAT, [2, 3, 4], [48, 16, 4], 0, true, 1⟩
      ⟨.GA_FLOAT, [2, 4, 1], [16, 4, 4], 0, true, 2⟩
      ⟨.GA_FLOAT, [2, 3, 1], [100, 4, 4], 0, true, 3⟩ false bkOK
      (by decide) (by decide) (by decide) (by decide) (by decide) (by decide)
      (by decide) (by decide)).2 kc hkc
    simpa using h

end GpuBlasLayer
